import Mathlib

/-!
# pocket-wallet: payment-intent-to-ledger reconciliation

A shallow embedding of the deposit creation and Stripe webhook paths of
`app.go`, `internal/database/mongodb.go` and `internal/stripe/stripe.go`.

* The two MongoDB collections are lists of documents in insertion order;
  `FindOne` and `UpdateOne` act on the first document that matches the filter,
  `InsertOne` appends.
* Go `error` values are their message strings (`%w` and `%v` splice the inner
  message).
* Everything the process does not decide itself (the clock, the uuid
  generator, the Stripe API, the webhook signature check of the Stripe
  library, `json.Unmarshal`, driver failures of the MongoDB client) is a field
  of `Env`.
* Every handler threads a `World`: the database and the trace of external
  calls made so far, in order.
* A Go panic is the result `none`: the webhook handler then writes no response.
* `float64` values are modelled exactly: a sign, a 53-bit significand and an
  unbounded binary exponent, with round-to-nearest-even.
-/

namespace PocketWallet

/-! ## float64 -/

/-- A finite `float64`: the value is `(-1)^neg * mant * 2^exp`.  Non-zero values are kept
normalised, `2^52 ≤ mant < 2^53`; zero has `mant = 0`.  The exponent is not bounded: the
values arising from an `int64` divided by `100.0` are far inside the normal range. -/
structure Float64 where
  neg : Bool
  mant : Nat
  exp : Int
deriving DecidableEq, Repr

/-- The rational number a `Float64` stands for. -/
def Float64.toRat (x : Float64) : ℚ :=
  (if x.neg then -1 else 1) * (x.mant : ℚ) * (2 : ℚ) ^ x.exp

/-- Nearest natural number to `a / b` (for `0 < b`), ties to the even neighbour. -/
def roundHalfEven (a b : Nat) : Nat :=
  if 2 * (a % b) < b then a / b
  else if b < 2 * (a % b) then a / b + 1
  else if (a / b) % 2 = 0 then a / b else a / b + 1

/-- Binary logarithm with a recursion bound: for `n ≤ fuel` it is the position of the
highest set bit of `n` (and `0` for `n = 0`). -/
def log2Fuel : Nat → Nat → Nat
  | 0, _ => 0
  | fuel + 1, n => if n < 2 then 0 else log2Fuel fuel (n / 2) + 1

/-- Position of the highest set bit: `2 ^ ilog2 n ≤ n < 2 ^ (ilog2 n + 1)` for `0 < n`. -/
def ilog2 (n : Nat) : Nat := log2Fuel n n

/-- Numerator of `N / (D * 2^e)` written as a quotient of naturals. -/
def scaleNum (N : Nat) (e : Int) : Nat := N * 2 ^ (-e).toNat

/-- Denominator of `N / (D * 2^e)` written as a quotient of naturals. -/
def scaleDen (D : Nat) (e : Int) : Nat := D * 2 ^ e.toNat

/-- The `float64` nearest to `± (N / D) * 2^s` (for `0 < D`), ties to even: the
significand is the quotient rounded to 53 bits. -/
def Float64.round (neg : Bool) (N D : Nat) (s : Int) : Float64 :=
  if N = 0 then ⟨neg, 0, 0⟩
  else
    let e0 : Int := (ilog2 N : Int) - (ilog2 D : Int) - 53
    let e : Int := if 2 ^ 53 ≤ scaleNum N e0 / scaleDen D e0 then e0 + 1 else e0
    let m := roundHalfEven (scaleNum N e) (scaleDen D e)
    if m = 2 ^ 53 then ⟨neg, 2 ^ 52, e + 1 + s⟩ else ⟨neg, m, e + s⟩

/-- Go conversion `float64(n)` of an integer. -/
def Float64.ofInt (n : Int) : Float64 :=
  Float64.round (decide (n < 0)) n.natAbs 1 0

/-- Go `a / b` on `float64`, for a non-zero divisor (the source only divides by the
constant `100.0`). -/
def Float64.div (a b : Float64) : Float64 :=
  Float64.round (xor a.neg b.neg) a.mant b.mant (a.exp - b.exp)

/-- Two decimal digits, zero padded. -/
def pad2 (k : Nat) : String :=
  if k < 10 then "0" ++ toString k else toString k

/-- Go `fmt.Sprintf("%.2f", x)`: the exact value rounded to two decimals, ties to even. -/
def Float64.format2 (x : Float64) : String :=
  let k := roundHalfEven (scaleNum (x.mant * 100) (-x.exp)) (scaleDen 1 (-x.exp))
  (if x.neg then "-" else "") ++ toString (k / 100) ++ "." ++ pad2 (k % 100)

/-! ## Data model (`models.go`, `internal/database/mongodb.go`) -/

/-- Go `time.Time`, as a number of clock ticks. -/
abbrev Time := Nat

/-- Go `database.User`. -/
structure User where
  UserID : String
  Login : String
  Email : String
  Salt : String
  PasswordHash : String
  EncryptedBalance : String
  CreatedAt : Time
  UpdatedAt : Time
deriving DecidableEq, Repr

/-- Go `database.Transaction` (the field `Type` is written `Type_`).  `PaymentID` is stored
with `omitempty`: the empty string means that the document has no `payment_id` field. -/
structure Transaction where
  TransactionID : String
  UserID : String
  Type_ : String
  Amount : Float64
  Currency : String
  Status : String
  Description : String
  PaymentID : String
  CreatedAt : Time
  UpdatedAt : Time
deriving DecidableEq, Repr

/-- Go `database.TransactionRequest`. -/
structure TransactionRequest where
  UserID : String
  Type_ : String
  Amount : Float64
  Currency : String
  Description : String
  PaymentID : String
deriving DecidableEq, Repr

/-- Go `StripePaymentIntentRequest`; `Amount` is an `int64` number of cents. -/
structure StripePaymentIntentRequest where
  UserID : String
  Amount : Int
deriving DecidableEq, Repr

/-- Go `StripePaymentIntentResponse`. -/
structure StripePaymentIntentResponse where
  ClientSecret : String
  PaymentID : String
deriving DecidableEq, Repr

/-- Go `database.MongoDB`: the `users` collection and the `transactions` collection. -/
structure MongoDB where
  collection : List User
  transactionCollection : List Transaction
deriving DecidableEq, Repr

/-! ## The outside world -/

/-- The part of `stripe.EventData` the handlers read: `Raw`, the JSON of `data.object`. -/
structure EventData where
  Raw : String
deriving DecidableEq, Repr

/-- The part of `stripe.Event` the handlers read: `event.Type` and `event.Data`.  `Data` is
a pointer in Go; it is `nil` (here `none`) when the JSON of the event has no `data`
member. -/
structure Event where
  Type_ : String
  Data : Option EventData
deriving DecidableEq, Repr

/-- The part of `stripe.PaymentIntent` the source reads. -/
structure PaymentIntent where
  ID : String
  ClientSecret : String
  Amount : Int
  Metadata : List (String × String)
deriving DecidableEq, Repr

/-- The MongoDB driver calls the modelled paths make. -/
inductive DriverOp where
  | usersFindOne
  | transactionsInsertOne
  | transactionsFindOne
  | transactionsUpdateOne
  | transactionsFind
  | transactionsCursor
deriving DecidableEq, Repr

/-- What one handler run gets from outside the process. -/
structure Env where
  /-- Reading of `time.Now()`. -/
  now : Time
  /-- Value of `uuid.New().String()`. -/
  uuid : String
  /-- Error of `webhook.ConstructEvent(payload, signature, secret)`, `none` when it accepts. -/
  ConstructEvent : String → String → Option String
  /-- Result of `json.Unmarshal(body, &event)`. -/
  unmarshalEvent : String → Except String Event
  /-- Result of `json.Unmarshal(event.Data.Raw, &paymentIntent)`. -/
  unmarshalPaymentIntent : String → Except String PaymentIntent
  /-- Result of `paymentintent.New` for an amount in PLN tagged with a `user_id`. -/
  paymentintentNew : Int → String → Except String PaymentIntent
  /-- Driver error (network, timeout) of a MongoDB call, `none` when the store answers. -/
  driverErr : DriverOp → Option String

/-- An external call, as recorded in the trace. -/
inductive Call where
  | ioReadAll
  | ConstructEvent (payload signature : String)
  | unmarshalEvent (body : String)
  | unmarshalPaymentIntent (raw : String)
  | paymentintentNew (amount : Int) (userID : String)
  | usersFindOne (userID : String)
  | transactionsInsertOne (t : Transaction)
  | transactionsFindOne (paymentID : String)
  | transactionsUpdateOne (transactionID status : String) (updatedAt : Time)
  | transactionsFind (userID : String) (limit : Int)
  | log (msg : String)
deriving DecidableEq, Repr

/-- The state a handler runs in: the database and the external calls made so far. -/
structure World where
  db : MongoDB
  trace : List Call
deriving DecidableEq, Repr

/-- Record one external call. -/
def World.emit (w : World) (c : Call) : World :=
  { w with trace := w.trace ++ [c] }

/-! ## `internal/database/mongodb.go` -/

/-- Filter `bson.M{"user_id": userID}` on the `users` collection. -/
def matchUserID (userID : String) (u : User) : Bool :=
  u.UserID == userID

/-- Filter `bson.M{"transaction_id": transactionID}`. -/
def matchTransactionID (transactionID : String) (t : Transaction) : Bool :=
  t.TransactionID == transactionID

/-- Filter `bson.M{"payment_id": paymentID}`: a document stored without the field (empty
`PaymentID`, dropped by `omitempty`) matches no string. -/
def matchPaymentID (paymentID : String) (t : Transaction) : Bool :=
  t.PaymentID != "" && t.PaymentID == paymentID

/-- Effect of `UpdateOne`: the first document that matches the filter is rewritten. -/
def updateFirst (p : Transaction → Bool) (f : Transaction → Transaction) :
    List Transaction → List Transaction
  | [] => []
  | t :: ts => if p t then f t :: ts else t :: updateFirst p f ts

/-- Go `(*MongoDB).GetUserByID`. -/
def MongoDB.GetUserByID (env : Env) (userID : String) (w : World) :
    Except String User × World :=
  let w := w.emit (.usersFindOne userID)
  match env.driverErr .usersFindOne with
  | some err => (.error ("failed to get user: " ++ err), w)
  | none =>
    match w.db.collection.find? (matchUserID userID) with
    | none => (.error "user not found", w)
    | some user => (.ok user, w)

/-- Go `(*MongoDB).CreateTransaction`.  A driver error is taken to mean that nothing was
inserted. -/
def MongoDB.CreateTransaction (env : Env) (req : TransactionRequest) (w : World) :
    Except String Transaction × World :=
  let transaction : Transaction :=
    { TransactionID := env.uuid
      UserID := req.UserID
      Type_ := req.Type_
      Amount := req.Amount
      Currency := req.Currency
      Status := "pending"
      Description := req.Description
      PaymentID := req.PaymentID
      CreatedAt := env.now
      UpdatedAt := env.now }
  let w := w.emit (.transactionsInsertOne transaction)
  match env.driverErr .transactionsInsertOne with
  | some err => (.error ("failed to create transaction: " ++ err), w)
  | none =>
    (.ok transaction,
      { w with db := { w.db with
          transactionCollection := w.db.transactionCollection ++ [transaction] } })

/-- Go `(*MongoDB).UpdateTransactionStatus`.  A driver error is taken to mean that nothing
was updated. -/
def MongoDB.UpdateTransactionStatus (env : Env) (transactionID status : String) (w : World) :
    Except String Unit × World :=
  let w := w.emit (.transactionsUpdateOne transactionID status env.now)
  match env.driverErr .transactionsUpdateOne with
  | some err => (.error ("failed to update transaction status: " ++ err), w)
  | none =>
    if w.db.transactionCollection.any (matchTransactionID transactionID) then
      (.ok (),
        { w with db := { w.db with
            transactionCollection :=
              updateFirst (matchTransactionID transactionID)
                (fun t => { t with Status := status, UpdatedAt := env.now })
                w.db.transactionCollection } })
    else (.error "transaction not found", w)

/-- Go `(*MongoDB).GetTransactionByPaymentID`. -/
def MongoDB.GetTransactionByPaymentID (env : Env) (paymentID : String) (w : World) :
    Except String Transaction × World :=
  let w := w.emit (.transactionsFindOne paymentID)
  match env.driverErr .transactionsFindOne with
  | some err => (.error ("failed to get transaction: " ++ err), w)
  | none =>
    match w.db.transactionCollection.find? (matchPaymentID paymentID) with
    | none => (.error "transaction not found", w)
    | some transaction => (.ok transaction, w)

/-- Go `(*MongoDB).GetUserTransactions`: `Find` with filter `bson.M{"user_id": userID}`,
sort `created_at: -1` and the limit (50 when the argument is not positive).  Records with
equal `created_at` are kept in insertion order, a choice the server leaves open.  A
`Decode` failure is not modelled: every stored document was written from a
`Transaction`. -/
def MongoDB.GetUserTransactions (env : Env) (userID : String) (limit : Int) (w : World) :
    Except String (List Transaction) × World :=
  let limit := if limit ≤ 0 then 50 else limit
  let w := w.emit (.transactionsFind userID limit)
  match env.driverErr .transactionsFind with
  | some err => (.error ("failed to get transactions: " ++ err), w)
  | none =>
    match env.driverErr .transactionsCursor with
    | some err => (.error ("cursor error: " ++ err), w)
    | none =>
      (.ok (((w.db.transactionCollection.filter (fun t => t.UserID == userID)).insertionSort
          (fun a b => b.CreatedAt ≤ a.CreatedAt)).take limit.toNat), w)

/-! ## `internal/stripe/stripe.go` -/

/-- Go `(*StripeService).CreatePaymentIntent`. -/
def StripeService.CreatePaymentIntent (env : Env) (req : StripePaymentIntentRequest)
    (w : World) : Except String StripePaymentIntentResponse × World :=
  let w := w.emit (.paymentintentNew req.Amount req.UserID)
  match env.paymentintentNew req.Amount req.UserID with
  | .error err => (.error ("failed to create payment intent: " ++ err), w)
  | .ok pi => (.ok { ClientSecret := pi.ClientSecret, PaymentID := pi.ID }, w)

/-- Go `(*StripeService).VerifyWebhookSignature`. -/
def StripeService.VerifyWebhookSignature (env : Env) (payload signature : String)
    (w : World) : Except String Unit × World :=
  let w := w.emit (.ConstructEvent payload signature)
  match env.ConstructEvent payload signature with
  | some err => (.error ("webhook signature verification failed: " ++ err), w)
  | none => (.ok (), w)

/-! ## `app.go` -/

/-- The part of `*http.Request` the webhook handler reads; `Body` is the outcome of
`io.ReadAll(r.Body)`. -/
structure Request where
  Method : String
  Body : Except String String
  Header : List (String × String)

/-- Go `r.Header.Get(key)`: the value, or the empty string when the header is missing. -/
def Request.HeaderGet (r : Request) (key : String) : String :=
  (r.Header.lookup key).getD ""

/-- What the handler writes to the `http.ResponseWriter`. -/
structure Response where
  StatusCode : Nat
  Body : String
deriving DecidableEq, Repr

/-- Go `http.Error(w, msg, code)`. -/
def httpError (msg : String) (code : Nat) : Response :=
  { StatusCode := code, Body := msg ++ "\n" }

/-- Go `(*App).CreatePaymentIntent`. -/
def App.CreatePaymentIntent (env : Env) (req : StripePaymentIntentRequest) (w : World) :
    Except String StripePaymentIntentResponse × World :=
  if req.UserID = "" ∨ req.Amount ≤ 0 then
    (.error "valid user_id and amount are required", w)
  else
    match MongoDB.GetUserByID env req.UserID w with
    | (.error err, w) => (.error ("user not found: " ++ err), w)
    | (.ok _, w) =>
      match StripeService.CreatePaymentIntent env
          { UserID := req.UserID, Amount := req.Amount } w with
      | (.error err, w) => (.error ("failed to create payment intent: " ++ err), w)
      | (.ok stripeResponse, w) =>
        let transactionReq : TransactionRequest :=
          { UserID := req.UserID
            Type_ := "deposit"
            Amount := (Float64.ofInt req.Amount).div (Float64.ofInt 100)
            Currency := "PLN"
            Description := "Doładowanie portfela - " ++
              ((Float64.ofInt req.Amount).div (Float64.ofInt 100)).format2 ++ " PLN"
            PaymentID := stripeResponse.PaymentID }
        let w :=
          match MongoDB.CreateTransaction env transactionReq w with
          | (.error err, w) =>
            w.emit (.log ("Warning: Failed to create transaction record: " ++ err))
          | (.ok _, w) => w
        (.ok { ClientSecret := stripeResponse.ClientSecret,
               PaymentID := stripeResponse.PaymentID },
          w.emit (.log ("Payment intent created for user " ++ req.UserID ++ ", amount: " ++
            toString req.Amount ++ " cents")))

/-- Go `TransactionListResponse`. -/
structure TransactionListResponse where
  Transactions : List Transaction
  Total : Nat
deriving DecidableEq, Repr

/-- Go `(*App).GetUserTransactions`.  The guard `a.db == nil` is not modelled: `startup`
ends the process when the connection fails, so the method runs with a database.  The
copy from `database.Transaction` to `Transaction` is field by field. -/
def App.GetUserTransactions (env : Env) (userID : String) (limit : Int) (w : World) :
    Except String TransactionListResponse × World :=
  if userID = "" then (.error "user_id is required", w)
  else
    match MongoDB.GetUserByID env userID w with
    | (.error err, w) => (.error ("user not found: " ++ err), w)
    | (.ok _, w) =>
      match MongoDB.GetUserTransactions env userID limit w with
      | (.error err, w) => (.error ("failed to get transactions: " ++ err), w)
      | (.ok dbTransactions, w) =>
        (.ok { Transactions := dbTransactions, Total := dbTransactions.length },
          w.emit (.log ("Retrieved " ++ toString dbTransactions.length ++
            " transactions for user " ++ userID)))

/-- Go `(*App).handlePaymentSuccess`.  The first component is `some` of the returned
`error` (`.ok ()` for `nil`), and `none` when the call panics: `event.Data.Raw`
dereferences `event.Data`, which is a nil pointer for an event without data. -/
def App.handlePaymentSuccess (env : Env) (event : Event) (w : World) :
    Option (Except String Unit) × World :=
  match event.Data with
  | none => (none, w)
  | some data =>
    let w := w.emit (.unmarshalPaymentIntent data.Raw)
    match env.unmarshalPaymentIntent data.Raw with
    | .error err => (some (.error ("error parsing payment intent: " ++ err)), w)
    | .ok paymentIntent =>
      match paymentIntent.Metadata.lookup "user_id" with
      | none => (some (.error "user_id not found in payment intent metadata"), w)
      | some userID =>
        match MongoDB.GetUserByID env userID w with
        | (.error err, w) => (some (.error ("user not found in database: " ++ err)), w)
        | (.ok user, w) =>
          let w :=
            match MongoDB.GetTransactionByPaymentID env paymentIntent.ID w with
            | (.error err, w) =>
              w.emit (.log ("Warning: Could not find transaction for payment ID " ++
                paymentIntent.ID ++ ": " ++ err))
            | (.ok transaction, w) =>
              match MongoDB.UpdateTransactionStatus env transaction.TransactionID
                  "completed" w with
              | (.error err, w) =>
                w.emit (.log ("Warning: Could not update transaction status: " ++ err))
              | (.ok _, w) => w
          (some (.ok ()),
            w.emit (.log ("Payment of " ++ toString paymentIntent.Amount ++
              " cents successful for user " ++ userID ++ " (" ++ user.Login ++ ")")))

/-- Go `(*App).handleStripeWebhook`.  The first component is what the handler writes to
the `http.ResponseWriter`; it is `none` when `handlePaymentSuccess` panics: the panic
unwinds through the handler before anything is written, and `net/http` recovers it and
closes the connection without a reply. -/
def App.handleStripeWebhook (env : Env) (r : Request) (w : World) :
    Option Response × World :=
  if r.Method != "POST" then (some (httpError "Method not allowed" 405), w)
  else
    let w := w.emit .ioReadAll
    match r.Body with
    | .error err =>
      (some (httpError "Error reading request body" 400),
        w.emit (.log ("Error reading webhook body: " ++ err)))
    | .ok body =>
      let signature := r.HeaderGet "Stripe-Signature"
      if signature = "" then
        (some (httpError "Missing Stripe signature" 400),
          w.emit (.log "Missing Stripe signature in webhook"))
      else
        match StripeService.VerifyWebhookSignature env body signature w with
        | (.error err, w) =>
          (some (httpError "Signature verification failed" 400),
            w.emit (.log ("Webhook signature verification failed: " ++ err)))
        | (.ok _, w) =>
          let w := w.emit (.unmarshalEvent body)
          match env.unmarshalEvent body with
          | .error err =>
            (some (httpError "Error parsing JSON" 400),
              w.emit (.log ("Error parsing webhook JSON: " ++ err)))
          | .ok event =>
            let w := w.emit (.log ("Received Stripe webhook event: " ++ event.Type_))
            if event.Type_ = "payment_intent.succeeded" then
              match App.handlePaymentSuccess env event w with
              | (none, w) => (none, w)
              | (some (.error err), w) =>
                (some (httpError "Error processing payment" 500),
                  w.emit (.log ("Error handling payment success: " ++ err)))
              | (some (.ok _), w) => (some { StatusCode := 200, Body := "" }, w)
            else (some { StatusCode := 200, Body := "" }, w)

/-! ## Sample data -/

/-- A registered user. -/
def sampleUser : User :=
  { UserID := "u1", Login := "alice", Email := "alice@example.org", Salt := "s",
    PasswordHash := "h", EncryptedBalance := "enc", CreatedAt := 1, UpdatedAt := 1 }

/-- A deposit of 50.00 PLN for `sampleUser` with payment id `pi_1`, in a given status. -/
def sampleTransaction (status : String) : Transaction :=
  { TransactionID := "tx-1", UserID := "u1", Type_ := "deposit",
    Amount := (Float64.ofInt 5000).div (Float64.ofInt 100), Currency := "PLN",
    Status := status, Description := "Doładowanie portfela - 50.00 PLN",
    PaymentID := "pi_1", CreatedAt := 5, UpdatedAt := 5 }

/-- An outside world in which the store and Stripe answer, the signature `good` is the
valid one, and the body `evt:P:U` is a `payment_intent.succeeded` event for payment `P`
of user `U` (`evt:pi_1:`: without a `user_id` tag; `evt:nodata`: without a `data`
member). -/
def sampleEnv : Env :=
  { now := 9
    uuid := "tx-2"
    ConstructEvent := fun _ signature =>
      if signature = "good" then none else some "webhook had no valid signature"
    unmarshalEvent := fun body =>
      if body = "evt:pi_1:u1" then
        .ok { Type_ := "payment_intent.succeeded", Data := some { Raw := "pi_1:u1" } }
      else if body = "evt:pi_9:u1" then
        .ok { Type_ := "payment_intent.succeeded", Data := some { Raw := "pi_9:u1" } }
      else if body = "evt:pi_1:ghost" then
        .ok { Type_ := "payment_intent.succeeded", Data := some { Raw := "pi_1:ghost" } }
      else if body = "evt:pi_1:" then
        .ok { Type_ := "payment_intent.succeeded", Data := some { Raw := "pi_1:" } }
      else if body = "evt:nodata" then
        .ok { Type_ := "payment_intent.succeeded", Data := none }
      else if body = "evt:created" then
        .ok { Type_ := "payment_intent.created", Data := some { Raw := "" } }
      else .error "unexpected end of JSON input"
    unmarshalPaymentIntent := fun raw =>
      if raw = "pi_1:u1" then
        .ok { ID := "pi_1", ClientSecret := "", Amount := 5000, Metadata := [("user_id", "u1")] }
      else if raw = "pi_9:u1" then
        .ok { ID := "pi_9", ClientSecret := "", Amount := 5000, Metadata := [("user_id", "u1")] }
      else if raw = "pi_1:ghost" then
        .ok { ID := "pi_1", ClientSecret := "", Amount := 5000,
              Metadata := [("user_id", "ghost")] }
      else if raw = "pi_1:" then
        .ok { ID := "pi_1", ClientSecret := "", Amount := 5000, Metadata := [] }
      else .error "unexpected end of JSON input"
    paymentintentNew := fun amount userID =>
      .ok { ID := "pi_1", ClientSecret := "pi_1_secret", Amount := amount,
            Metadata := [("user_id", userID)] }
    driverErr := fun _ => none }

/-- The sample outside world with the Stripe API unreachable. -/
def sampleEnvGatewayDown : Env :=
  { sampleEnv with paymentintentNew := fun _ _ => .error "connection refused" }

/-- The sample outside world with every insert into `transactions` timing out. -/
def sampleEnvInsertDown : Env :=
  { sampleEnv with
    driverErr := fun op =>
      if op = DriverOp.transactionsInsertOne then some "context deadline exceeded" else none }

/-- The sample outside world with every update of `transactions` timing out. -/
def sampleEnvUpdateDown : Env :=
  { sampleEnv with
    driverErr := fun op =>
      if op = DriverOp.transactionsUpdateOne then some "context deadline exceeded" else none }

/-- A ledger with two records for payment id `pi_1`: a failed one, `tx-0`, ahead of the
pending sample deposit `tx-1`. -/
def shadowedLedger : List Transaction :=
  [{ sampleTransaction "failed" with TransactionID := "tx-0" }, sampleTransaction "pending"]

/-- A signed webhook delivery with the given body. -/
def sampleRequest (body signature : String) : Request :=
  { Method := "POST", Body := .ok body, Header := [("Stripe-Signature", signature)] }

/-- A world with `sampleUser` registered and the given ledger; nothing called yet. -/
def sampleWorld (ledger : List Transaction) : World :=
  { db := { collection := [sampleUser], transactionCollection := ledger }, trace := [] }

/-! ## Vocabulary of the properties -/

/-- The payment ids present in a ledger: one entry per record that has a `payment_id`. -/
def paymentIDs (ledger : List Transaction) : List String :=
  (ledger.filter (fun t => t.PaymentID != "")).map (fun t => t.PaymentID)

/-- The raw payment intent of an event that carries data, `event.Data.Raw` (the empty
string for an event without data). -/
def Event.Raw (event : Event) : String :=
  match event.Data with
  | some data => data.Raw
  | none => ""

/-- The request `req` is a POST delivery with body `body`, correctly signed for `env`, of an
event `event` of type `payment_intent.succeeded` that carries data and whose payment
intent parses to `intent`. -/
structure SucceededDelivery (env : Env) (req : Request) (body : String) (event : Event)
    (intent : PaymentIntent) : Prop where
  method : req.Method = "POST"
  readable : req.Body = .ok body
  signed : req.HeaderGet "Stripe-Signature" ≠ ""
  verified : env.ConstructEvent body (req.HeaderGet "Stripe-Signature") = none
  parsed : env.unmarshalEvent body = .ok event
  succeeded : event.Type_ = "payment_intent.succeeded"
  hasData : event.Data ≠ none
  payload : env.unmarshalPaymentIntent event.Raw = .ok intent

/-- The document `CreateTransaction` builds from a request: status `pending`, a fresh uuid,
both timestamps the time of the call. -/
def pendingRecord (env : Env) (req : TransactionRequest) : Transaction :=
  { TransactionID := env.uuid, UserID := req.UserID, Type_ := req.Type_, Amount := req.Amount,
    Currency := req.Currency, Status := "pending", Description := req.Description,
    PaymentID := req.PaymentID, CreatedAt := env.now, UpdatedAt := env.now }

/-- A second request for the payment id of `sampleTransaction`. -/
def sampleDuplicate : TransactionRequest :=
  { UserID := "u1", Type_ := "deposit", Amount := (Float64.ofInt 700).div (Float64.ofInt 100),
    Currency := "PLN", Description := "Doładowanie portfela - 7.00 PLN", PaymentID := "pi_1" }

/-- The record a status update writes: `$set` of `status` and `updated_at`. -/
def Transaction.withStatus (t : Transaction) (status : String) (now : Time) : Transaction :=
  { t with Status := status, UpdatedAt := now }

/-- The trace of a webhook run that gets as far as the user lookup for `userID`. -/
def deliveryPrefix (req : Request) (body : String) (event : Event) (userID : String) :
    List Call :=
  [Call.ioReadAll, Call.ConstructEvent body (req.HeaderGet "Stripe-Signature"),
    Call.unmarshalEvent body, Call.log ("Received Stripe webhook event: " ++ event.Type_),
    Call.unmarshalPaymentIntent event.Raw, Call.usersFindOne userID]

/-- A call that reads or writes the account store or the ledger. -/
def Call.isStore : Call → Bool
  | .usersFindOne _ => true
  | .transactionsInsertOne _ => true
  | .transactionsFindOne _ => true
  | .transactionsUpdateOne _ _ _ => true
  | .transactionsFind _ _ => true
  | _ => false

/-- A call that verifies the signature of a webhook payload or parses the payload. -/
def Call.isVerifyOrParse : Call → Bool
  | .ConstructEvent _ _ => true
  | .unmarshalEvent _ => true
  | .unmarshalPaymentIntent _ => true
  | _ => false

/-- The bound `L` of a listing: the limit when it is positive, 50 otherwise. -/
def effectiveLimit (limit : Int) : Nat :=
  if 0 < limit then limit.toNat else 50

/-- The records of a user in a ledger. -/
def userRecords (userID : String) (ledger : List Transaction) : List Transaction :=
  ledger.filter (fun t => t.UserID == userID)

/-- What a status update for transaction id `transactionID` may do to one record: a record
with another id is left as it is, and of a record with that id only `Status` and
`UpdatedAt` may differ. -/
def statusFrame (transactionID : String) (old new : Transaction) : Prop :=
  (old.TransactionID ≠ transactionID → new = old) ∧
  new.TransactionID = old.TransactionID ∧ new.UserID = old.UserID ∧
  new.Type_ = old.Type_ ∧ new.Amount = old.Amount ∧ new.Currency = old.Currency ∧
  new.Description = old.Description ∧ new.PaymentID = old.PaymentID ∧
  new.CreatedAt = old.CreatedAt

/-- A deposit of `sampleUser` (or of `userID`) created at a given time. -/
def sampleDeposit (transactionID userID : String) (createdAt : Time) : Transaction :=
  { TransactionID := transactionID, UserID := userID, Type_ := "deposit",
    Amount := ⟨false, 7036874417766400, -47⟩, Currency := "PLN", Status := "completed",
    Description := "Doładowanie portfela - 50.00 PLN", PaymentID := "",
    CreatedAt := createdAt, UpdatedAt := createdAt }

/-- A ledger with three deposits of `u1` and one of `u2`, not in order of creation. -/
def sampleLedger : List Transaction :=
  [sampleDeposit "a" "u1" 3, sampleDeposit "b" "u2" 8, sampleDeposit "c" "u1" 7,
    sampleDeposit "d" "u1" 5]

/-! ## float64 rounding -/

theorem log2Fuel_spec : ∀ (fuel n : Nat), n ≤ fuel → 0 < n →
    2 ^ log2Fuel fuel n ≤ n ∧ n < 2 ^ (log2Fuel fuel n + 1)
  | 0, n, h, h0 => by omega
  | fuel + 1, n, h, h0 => by
    by_cases h2 : n < 2
    · have : n = 1 := by omega
      simp [log2Fuel, this]
    · have ih := log2Fuel_spec fuel (n / 2) (by omega) (by omega)
      simp only [log2Fuel, h2, if_false]
      rw [pow_succ, pow_succ]
      rw [pow_succ] at ih
      constructor <;> omega

theorem ilog2_spec (n : Nat) (h : 0 < n) : 2 ^ ilog2 n ≤ n ∧ n < 2 ^ (ilog2 n + 1) :=
  log2Fuel_spec n n le_rfl h

theorem scale_quotient (N D : Nat) (e : Int) :
    (scaleNum N e : ℚ) / (scaleDen D e : ℚ) = (N : ℚ) / D * (2 : ℚ) ^ (-e) := by
  obtain ⟨k, rfl | rfl⟩ := Int.eq_nat_or_neg e
  · simp [scaleNum, scaleDen, zpow_neg]
    field_simp
  · simp [scaleNum, scaleDen]
    field_simp

theorem roundHalfEven_close (a b : Nat) (hb : 0 < b) :
    |(roundHalfEven a b : ℚ) - (a : ℚ) / b| ≤ 1 / 2 := by
  have hb' : (0 : ℚ) < b := by exact_mod_cast hb
  have hdm : (a : ℚ) = b * (a / b : ℕ) + (a % b : ℕ) := by exact_mod_cast (Nat.div_add_mod a b).symm
  have hr : ((a % b : ℕ) : ℚ) < b := by exact_mod_cast Nat.mod_lt a hb
  have hr0 : (0 : ℚ) ≤ ((a % b : ℕ) : ℚ) := by positivity
  have hq : (a : ℚ) / b = (a / b : ℕ) + ((a % b : ℕ) : ℚ) / b := by
    rw [hdm]; field_simp; ring
  rw [hq, abs_le]
  unfold roundHalfEven
  split_ifs with h1 h2 h3
  · have h1' : 2 * ((a % b : ℕ) : ℚ) < b := by exact_mod_cast h1
    constructor
    · rw [show ((a / b : ℕ) : ℚ) - (↑(a / b) + ↑(a % b) / ↑b) = -(↑(a % b) / ↑b) by ring]
      rw [neg_le_neg_iff, div_le_iff₀ hb']; linarith
    · rw [show ((a / b : ℕ) : ℚ) - (↑(a / b) + ↑(a % b) / ↑b) = -(↑(a % b) / ↑b) by ring]
      have : 0 ≤ ((a % b : ℕ) : ℚ) / b := by positivity
      linarith
  · have h2' : (b : ℚ) < 2 * ((a % b : ℕ) : ℚ) := by exact_mod_cast h2
    push_cast
    rw [show ((a / b : ℕ) : ℚ) + 1 - (↑(a / b) + ↑(a % b) / ↑b) = 1 - (↑(a % b) / ↑b) by ring]
    have hle : ((a % b : ℕ) : ℚ) / b ≤ 1 := by rw [div_le_iff₀ hb']; linarith
    have hge : (1:ℚ)/2 ≤ ((a % b : ℕ) : ℚ) / b := by rw [le_div_iff₀ hb']; linarith
    constructor <;> linarith
  · have h1' : (b : ℚ) ≤ 2 * ((a % b : ℕ) : ℚ) := by exact_mod_cast (not_lt.mp h1)
    have h2' : 2 * ((a % b : ℕ) : ℚ) ≤ b := by exact_mod_cast (not_lt.mp h2)
    rw [show ((a / b : ℕ) : ℚ) - (↑(a / b) + ↑(a % b) / ↑b) = -(↑(a % b) / ↑b) by ring]
    have hle : ((a % b : ℕ) : ℚ) / b ≤ 1/2 := by rw [div_le_iff₀ hb']; linarith
    have : 0 ≤ ((a % b : ℕ) : ℚ) / b := by positivity
    constructor <;> linarith
  · have h1' : (b : ℚ) ≤ 2 * ((a % b : ℕ) : ℚ) := by exact_mod_cast (not_lt.mp h1)
    have h2' : 2 * ((a % b : ℕ) : ℚ) ≤ b := by exact_mod_cast (not_lt.mp h2)
    push_cast
    rw [show ((a / b : ℕ) : ℚ) + 1 - (↑(a / b) + ↑(a % b) / ↑b) = 1 - (↑(a % b) / ↑b) by ring]
    have hle : ((a % b : ℕ) : ℚ) / b ≤ 1 := by rw [div_le_iff₀ hb']; linarith
    have hge : (1:ℚ)/2 ≤ ((a % b : ℕ) : ℚ) / b := by rw [le_div_iff₀ hb']; linarith
    constructor <;> linarith

/-- The value of a rounded quotient, whatever the branch taken. -/
theorem round_value (neg : Bool) (N D : Nat) (s : Int) (hN : N ≠ 0) :
    ∃ e : Int, ((Float64.round neg N D s).mant : ℚ) * (2 : ℚ) ^ (Float64.round neg N D s).exp =
        (roundHalfEven (scaleNum N e) (scaleDen D e) : ℚ) * (2 : ℚ) ^ (e + s) ∧
      (Float64.round neg N D s).neg = neg ∧
      e = (if 2 ^ 53 ≤ scaleNum N ((ilog2 N : Int) - (ilog2 D : Int) - 53) /
              scaleDen D ((ilog2 N : Int) - (ilog2 D : Int) - 53)
            then (ilog2 N : Int) - (ilog2 D : Int) - 53 + 1
            else (ilog2 N : Int) - (ilog2 D : Int) - 53) := by
  refine ⟨_, ?_, ?_, rfl⟩
  · simp only [Float64.round, hN, if_false]
    split_ifs with h1 h2 h2
    · rw [h2]; push_cast
      rw [show (((ilog2 N : Int) - (ilog2 D : Int) - 53 + 1) + 1 + s) = (((ilog2 N : Int) - (ilog2 D : Int) - 53 + 1) + s) + 1 by ring, zpow_add_one₀ (by norm_num)]
      ring
    · rfl
    · rw [h2]; push_cast
      rw [show (((ilog2 N : Int) - (ilog2 D : Int) - 53) + 1 + s) = (((ilog2 N : Int) - (ilog2 D : Int) - 53) + s) + 1 by ring, zpow_add_one₀ (by norm_num)]
      ring
    · rfl
  · simp only [Float64.round, hN, if_false]
    split_ifs <;> rfl

theorem log_scaled_ge (N D : Nat) (hN : 0 < N) (hD : 0 < D) :
    (2 : ℚ) ^ 52 ≤ (N : ℚ) / D * (2 : ℚ) ^ (-((ilog2 N : Int) - (ilog2 D : Int) - 53)) := by
  have hA : ((2 : ℚ) ^ ilog2 N) ≤ N := by exact_mod_cast (ilog2_spec N hN).1
  have hB : (D : ℚ) < 2 ^ ilog2 D * 2 := by
    have := (ilog2_spec D hD).2
    rw [pow_succ] at this
    exact_mod_cast this
  have hA0 : (0 : ℚ) < 2 ^ ilog2 N := by positivity
  have hB0 : (0 : ℚ) < 2 ^ ilog2 D := by positivity
  have hD0 : (0 : ℚ) < D := by exact_mod_cast hD
  have hpow : (2 : ℚ) ^ (-((ilog2 N : Int) - (ilog2 D : Int) - 53)) =
      2 ^ ilog2 D * 2 ^ 53 / 2 ^ ilog2 N := by
    rw [show (-((ilog2 N : Int) - (ilog2 D : Int) - 53)) =
      ((ilog2 D : Int) + 53) - (ilog2 N : Int) by ring]
    rw [zpow_sub₀ (by norm_num), zpow_add₀ (by norm_num), zpow_natCast, zpow_natCast]
    norm_num
  rw [hpow, div_mul_div_comm, le_div_iff₀ (by positivity)]
  have h1 : (2 : ℚ) ^ ilog2 N * (2 ^ ilog2 D * 2) ≤ N * (2 ^ ilog2 D * 2) :=
    mul_le_mul_of_nonneg_right hA (by positivity)
  have h2 : (2 : ℚ) ^ ilog2 N * D ≤ 2 ^ ilog2 N * (2 ^ ilog2 D * 2) :=
    mul_le_mul_of_nonneg_left hB.le hA0.le
  nlinarith [h1, h2]

theorem normalised_ge (N D : Nat) (hD : 0 < D) (e0 : Int)
    (h0 : (2 : ℚ) ^ 52 ≤ (N : ℚ) / D * (2 : ℚ) ^ (-e0)) :
    (2 : ℚ) ^ 52 ≤ (N : ℚ) / D * (2 : ℚ) ^
      (-(if 2 ^ 53 ≤ scaleNum N e0 / scaleDen D e0 then e0 + 1 else e0)) := by
  split_ifs with h
  · have hden : 0 < scaleDen D e0 := by
      unfold scaleDen; positivity
    have hle : 2 ^ 53 * scaleDen D e0 ≤ scaleNum N e0 := (Nat.le_div_iff_mul_le hden).mp h
    have hq : (2 : ℚ) ^ 53 ≤ (scaleNum N e0 : ℚ) / scaleDen D e0 := by
      rw [le_div_iff₀ (by exact_mod_cast hden)]
      exact_mod_cast hle
    rw [scale_quotient] at hq
    rw [show (-(e0 + 1)) = -e0 - 1 by ring, zpow_sub_one₀ (by norm_num)]
    rw [← mul_assoc]
    have : (2 : ℚ) ^ 52 = 2 ^ 53 * 2⁻¹ := by norm_num
    rw [this]
    exact mul_le_mul_of_nonneg_right hq (by norm_num)
  · exact h0

/-- Rounding a positive quotient to 53 bits loses at most the relative amount `2^-53`. -/
theorem round_close (neg : Bool) (N D : Nat) (s : Int) (hN : 0 < N) (hD : 0 < D) :
    |((Float64.round neg N D s).mant : ℚ) * (2 : ℚ) ^ (Float64.round neg N D s).exp -
        (N : ℚ) / D * (2 : ℚ) ^ s| ≤ (N : ℚ) / D * (2 : ℚ) ^ s / 2 ^ 53 := by
  obtain ⟨e, hval, -, he⟩ := round_value neg N D s (Nat.pos_iff_ne_zero.mp hN)
  have hnorm : (2 : ℚ) ^ 52 ≤ (N : ℚ) / D * (2 : ℚ) ^ (-e) := by
    rw [he]; exact normalised_ge N D hD _ (log_scaled_ge N D hN hD)
  have hden : 0 < scaleDen D e := by unfold scaleDen; positivity
  have hr := roundHalfEven_close (scaleNum N e) (scaleDen D e) hden
  rw [scale_quotient] at hr
  have hpos : (0 : ℚ) < 2 ^ (e + s) := by positivity
  have hsplit : (N : ℚ) / D * (2 : ℚ) ^ s = (N : ℚ) / D * (2 : ℚ) ^ (-e) * 2 ^ (e + s) := by
    rw [mul_assoc, ← zpow_add₀ (by norm_num)]; congr 2; ring
  rw [hval, hsplit, ← sub_mul, abs_mul, abs_of_pos hpos, mul_div_right_comm]
  apply mul_le_mul_of_nonneg_right _ hpos.le
  calc |(roundHalfEven (scaleNum N e) (scaleDen D e) : ℚ) - (N : ℚ) / D * (2 : ℚ) ^ (-e)|
      ≤ 1 / 2 := hr
    _ = 2 ^ 52 / 2 ^ 53 := by norm_num
    _ ≤ (N : ℚ) / D * (2 : ℚ) ^ (-e) / 2 ^ 53 := by
        apply div_le_div_of_nonneg_right hnorm (by positivity)

theorem round_neg (neg : Bool) (N D : Nat) (s : Int) : (Float64.round neg N D s).neg = neg := by
  simp only [Float64.round]
  split_ifs <;> rfl

theorem hundred_eq : Float64.ofInt 100 = ⟨false, 7036874417766400, -46⟩ := by decide

/-- The stored amount of a deposit of `n > 0` cents is `n / 100` up to float64 rounding. -/
theorem amount_close (n : Int) (hn : 0 < n) :
    |((Float64.ofInt n).div (Float64.ofInt 100)).toRat - (n : ℚ) / 100| ≤
      (n : ℚ) / 100 / 2 ^ 51 := by
  have hnq : (0 : ℚ) < n := by exact_mod_cast hn
  have hN : 0 < n.natAbs := Int.natAbs_pos.mpr hn.ne'
  have hcast : ((n.natAbs : ℕ) : ℚ) = n := by
    have h1 : ((n.natAbs : ℕ) : ℤ) = n := Int.natAbs_of_nonneg hn.le
    rw [← Int.cast_natCast, h1]
  have ha := round_close (decide (n < 0)) n.natAbs 1 0 hN one_pos
  rw [hcast] at ha
  simp only [Nat.cast_one, div_one, zpow_zero, mul_one] at ha
  have haneg : (Float64.ofInt n).neg = false := by
    rw [Float64.ofInt, round_neg]; simpa using hn.le
  change |((Float64.ofInt n).mant : ℚ) * (2 : ℚ) ^ (Float64.ofInt n).exp - n| ≤ _ at ha
  have hapos : (0 : ℚ) < ((Float64.ofInt n).mant : ℚ) * (2 : ℚ) ^ (Float64.ofInt n).exp := by
    have h1 := (abs_le.mp ha).1
    have h2 : (n : ℚ) / 2 ^ 53 < n := by
      rw [div_lt_iff₀ (by positivity)]
      nlinarith
    linarith
  have hmant : 0 < (Float64.ofInt n).mant := by
    by_contra h0
    have : (Float64.ofInt n).mant = 0 := by omega
    rw [this] at hapos
    simp at hapos
  have hd := round_close (xor (Float64.ofInt n).neg false) (Float64.ofInt n).mant
    7036874417766400 ((Float64.ofInt n).exp - (-46)) hmant (by norm_num)
  have hres : (Float64.ofInt n).div (Float64.ofInt 100) =
      Float64.round (xor (Float64.ofInt n).neg false) (Float64.ofInt n).mant
        7036874417766400 ((Float64.ofInt n).exp - (-46)) := by
    rw [hundred_eq]; rfl
  have hrneg : ((Float64.ofInt n).div (Float64.ofInt 100)).neg = false := by
    rw [hres, round_neg, haneg]; rfl
  rw [← hres] at hd
  have htarget : (((Float64.ofInt n).mant : ℕ) : ℚ) / (7036874417766400 : ℕ) *
      (2 : ℚ) ^ ((Float64.ofInt n).exp - (-46)) =
      ((Float64.ofInt n).mant : ℚ) * (2 : ℚ) ^ (Float64.ofInt n).exp / 100 := by
    rw [sub_neg_eq_add, zpow_add₀ (by norm_num)]
    norm_num
    ring
  rw [htarget] at hd
  have hto : ((Float64.ofInt n).div (Float64.ofInt 100)).toRat =
      (((Float64.ofInt n).div (Float64.ofInt 100)).mant : ℚ) *
        (2 : ℚ) ^ ((Float64.ofInt n).div (Float64.ofInt 100)).exp := by
    simp [Float64.toRat, hrneg]
  rw [hto]
  generalize (((Float64.ofInt n).div (Float64.ofInt 100)).mant : ℚ) *
        (2 : ℚ) ^ ((Float64.ofInt n).div (Float64.ofInt 100)).exp = res at hd ⊢
  generalize ((Float64.ofInt n).mant : ℚ) * (2 : ℚ) ^ (Float64.ofInt n).exp = a at ha hd hapos
  have ha' := abs_le.mp ha
  have hd' := abs_le.mp hd
  have e53 : (n : ℚ) / 2 ^ 53 = n * (1 / 2 ^ 53) := by ring
  have ed53 : a / 100 / 2 ^ 53 = a * (1 / 100 * (1 / 2 ^ 53)) := by ring
  rw [e53] at ha'
  rw [ed53] at hd'
  rw [abs_le]
  have e51 : (n : ℚ) / 100 / 2 ^ 51 = n * (1 / 100 * (1 / 2 ^ 51)) := by ring
  rw [e51]
  constructor <;> norm_num at * <;> nlinarith

/-! ## Store lemmas -/

theorem find?_updateFirst_same {p q : Transaction → Bool} {f : Transaction → Transaction}
    (hq : ∀ t, q (f t) = q t) {r : Transaction} :
    ∀ {l : List Transaction}, l.find? p = some r → l.find? q = some r →
      (updateFirst p f l).find? q = some (f r)
  | [], hp, _ => by simp at hp
  | t :: ts, hp, hq' => by
    by_cases hpt : p t = true
    · have hrt : t = r := by simpa [List.find?, hpt] using hp
      subst hrt
      have hqt : q t = true := by
        have := List.find?_some hq'
        exact this
      simp [updateFirst, hpt, List.find?, hq, hqt]
    · have hpt' : p t = false := by simpa using hpt
      have hp' : ts.find? p = some r := by simpa [List.find?, hpt'] using hp
      by_cases hqt : q t = true
      · have hrt : t = r := by simpa [List.find?, hqt] using hq'
        subst hrt
        have := List.find?_some hp'
        simp [hpt'] at this
      · have hqt' : q t = false := by simpa using hqt
        have hq'' : ts.find? q = some r := by simpa [List.find?, hqt'] using hq'
        simp [updateFirst, hpt', List.find?, hqt', find?_updateFirst_same hq hp' hq'']

theorem GetUserByID_found {env : Env} {userID : String} {w : World} {user : User}
    (hd : env.driverErr .usersFindOne = none)
    (h : w.db.collection.find? (matchUserID userID) = some user) :
    MongoDB.GetUserByID env userID w = (.ok user, w.emit (.usersFindOne userID)) := by
  simp [MongoDB.GetUserByID, hd, World.emit, h]

theorem GetUserByID_absent {env : Env} {userID : String} {w : World}
    (hd : env.driverErr .usersFindOne = none)
    (h : w.db.collection.find? (matchUserID userID) = none) :
    MongoDB.GetUserByID env userID w =
      (.error "user not found", w.emit (.usersFindOne userID)) := by
  simp only [MongoDB.GetUserByID, hd, World.emit, h]

theorem GetTransactionByPaymentID_found {env : Env} {paymentID : String} {w : World}
    {r : Transaction} (hd : env.driverErr .transactionsFindOne = none)
    (h : w.db.transactionCollection.find? (matchPaymentID paymentID) = some r) :
    MongoDB.GetTransactionByPaymentID env paymentID w =
      (.ok r, w.emit (.transactionsFindOne paymentID)) := by
  simp [MongoDB.GetTransactionByPaymentID, hd, World.emit, h]

theorem GetTransactionByPaymentID_absent {env : Env} {paymentID : String} {w : World}
    (hd : env.driverErr .transactionsFindOne = none)
    (h : w.db.transactionCollection.find? (matchPaymentID paymentID) = none) :
    MongoDB.GetTransactionByPaymentID env paymentID w =
      (.error "transaction not found", w.emit (.transactionsFindOne paymentID)) := by
  simp only [MongoDB.GetTransactionByPaymentID, hd, World.emit, h]

/-! ## Webhook runs, step by step -/

/-- The data of a succeeded delivery. -/
theorem SucceededDelivery.data_eq {env : Env} {req : Request} {body : String}
    {event : Event} {intent : PaymentIntent}
    (h : SucceededDelivery env req body event intent) :
    event.Data = some { Raw := event.Raw } := by
  cases hD : event.Data with
  | none => exact absurd hD h.hasData
  | some data => simp [Event.Raw, hD]

/-- A succeeded delivery reaches `handlePaymentSuccess` with the event parsed. -/
theorem handleStripeWebhook_reaches_handler {env : Env} {req : Request} {body : String}
    {event : Event} {intent : PaymentIntent} (h : SucceededDelivery env req body event intent)
    (w : World) :
    App.handleStripeWebhook env req w =
      match App.handlePaymentSuccess env event
          { db := w.db
            trace := w.trace ++ [Call.ioReadAll,
              Call.ConstructEvent body (req.HeaderGet "Stripe-Signature"),
              Call.unmarshalEvent body,
              Call.log ("Received Stripe webhook event: " ++ event.Type_)] } with
      | (none, w) => (none, w)
      | (some (.error err), w) =>
        (some (httpError "Error processing payment" 500),
          w.emit (.log ("Error handling payment success: " ++ err)))
      | (some (.ok _), w) => (some { StatusCode := 200, Body := "" }, w) := by
  simp [App.handleStripeWebhook, h.method, h.readable, h.signed, h.verified, h.parsed,
    h.succeeded, StripeService.VerifyWebhookSignature, World.emit]

/-- The run of a succeeded delivery for a known user whose payment id the ledger knows:
the first record with the found record's transaction id is set to `completed`. -/
theorem handleStripeWebhook_found {env : Env} {req : Request} {body : String}
    {event : Event} {intent : PaymentIntent} {userID : String} {user : User} {w : World}
    {r : Transaction} (h : SucceededDelivery env req body event intent)
    (htag : intent.Metadata.lookup "user_id" = some userID)
    (hd : ∀ op, env.driverErr op = none)
    (huser : w.db.collection.find? (matchUserID userID) = some user)
    (hP : w.db.transactionCollection.find? (matchPaymentID intent.ID) = some r) :
    App.handleStripeWebhook env req w =
      (some { StatusCode := 200, Body := "" },
        { db := { collection := w.db.collection
                  transactionCollection :=
                    updateFirst (matchTransactionID r.TransactionID)
                      (fun t => t.withStatus "completed" env.now) w.db.transactionCollection }
          trace := w.trace ++ deliveryPrefix req body event userID ++
            [Call.transactionsFindOne intent.ID,
              Call.transactionsUpdateOne r.TransactionID "completed" env.now,
              Call.log ("Payment of " ++ toString intent.Amount ++
                " cents successful for user " ++ userID ++ " (" ++ user.Login ++ ")")] }) := by
  have hany : w.db.transactionCollection.any (matchTransactionID r.TransactionID) = true := by
    rw [List.any_eq_true]
    exact ⟨r, List.mem_of_find?_eq_some hP, by simp [matchTransactionID]⟩
  rw [handleStripeWebhook_reaches_handler h]
  simp [App.handlePaymentSuccess, h.data_eq, h.payload, htag, MongoDB.GetUserByID, hd, huser,
    MongoDB.GetTransactionByPaymentID, hP, MongoDB.UpdateTransactionStatus, hany, World.emit,
    deliveryPrefix, Transaction.withStatus]

/-- The run of a succeeded delivery for a known user whose payment id the ledger does not
know: a warning is logged and nothing is written. -/
theorem handleStripeWebhook_unmatched {env : Env} {req : Request} {body : String}
    {event : Event} {intent : PaymentIntent} {userID : String} {user : User} {w : World}
    (h : SucceededDelivery env req body event intent)
    (htag : intent.Metadata.lookup "user_id" = some userID)
    (hd : ∀ op, env.driverErr op = none)
    (huser : w.db.collection.find? (matchUserID userID) = some user)
    (hP : w.db.transactionCollection.find? (matchPaymentID intent.ID) = none) :
    App.handleStripeWebhook env req w =
      (some { StatusCode := 200, Body := "" },
        { db := w.db
          trace := w.trace ++ deliveryPrefix req body event userID ++
            [Call.transactionsFindOne intent.ID,
              Call.log ("Warning: Could not find transaction for payment ID " ++ intent.ID ++
                ": " ++ "transaction not found"),
              Call.log ("Payment of " ++ toString intent.Amount ++
                " cents successful for user " ++ userID ++ " (" ++ user.Login ++ ")")] }) := by
  rw [handleStripeWebhook_reaches_handler h]
  simp [App.handlePaymentSuccess, h.data_eq, h.payload, htag, MongoDB.GetUserByID, hd, huser,
    MongoDB.GetTransactionByPaymentID, hP, World.emit, deliveryPrefix]

/-- The run of a succeeded delivery whose `user_id` tag names no stored user. -/
theorem handleStripeWebhook_unknown_user {env : Env} {req : Request} {body : String}
    {event : Event} {intent : PaymentIntent} {userID : String} {w : World}
    (h : SucceededDelivery env req body event intent)
    (htag : intent.Metadata.lookup "user_id" = some userID)
    (hd : env.driverErr .usersFindOne = none)
    (huser : w.db.collection.find? (matchUserID userID) = none) :
    App.handleStripeWebhook env req w =
      (some (httpError "Error processing payment" 500),
        { db := w.db
          trace := w.trace ++ deliveryPrefix req body event userID ++
            [Call.log ("Error handling payment success: " ++
              ("user not found in database: " ++ "user not found"))] }) := by
  rw [handleStripeWebhook_reaches_handler h]
  simp [App.handlePaymentSuccess, h.data_eq, h.payload, htag, MongoDB.GetUserByID, hd, huser,
    World.emit, deliveryPrefix]

/-- The run of a correctly signed `payment_intent.succeeded` event that has no data:
`handlePaymentSuccess` panics on `event.Data.Raw`, so no response is written; nothing was
read from or written to the store. -/
theorem handleStripeWebhook_nil_data {env : Env} {req : Request} {body : String}
    {event : Event} (w : World) (hm : req.Method = "POST") (hb : req.Body = .ok body)
    (hs : req.HeaderGet "Stripe-Signature" ≠ "")
    (hv : env.ConstructEvent body (req.HeaderGet "Stripe-Signature") = none)
    (hp : env.unmarshalEvent body = .ok event)
    (ht : event.Type_ = "payment_intent.succeeded") (hn : event.Data = none) :
    App.handleStripeWebhook env req w =
      (none,
        { db := w.db
          trace := w.trace ++
            [Call.ioReadAll, Call.ConstructEvent body (req.HeaderGet "Stripe-Signature"),
              Call.unmarshalEvent body,
              Call.log ("Received Stripe webhook event: " ++ event.Type_)] }) := by
  simp [App.handleStripeWebhook, hm, hb, hs, hv, hp, ht, App.handlePaymentSuccess, hn,
    StripeService.VerifyWebhookSignature, World.emit]

theorem updateFirst_frame (transactionID : String) (f : Transaction → Transaction)
    (hf : ∀ t, t.TransactionID = transactionID → statusFrame transactionID t (f t)) :
    ∀ l : List Transaction,
      List.Forall₂ (statusFrame transactionID) l
        (updateFirst (matchTransactionID transactionID) f l)
  | [] => List.Forall₂.nil
  | t :: ts => by
    have hrefl : ∀ x : Transaction, statusFrame transactionID x x :=
      fun x => ⟨fun _ => rfl, rfl, rfl, rfl, rfl, rfl, rfl, rfl, rfl⟩
    by_cases h : matchTransactionID transactionID t = true
    · simp only [updateFirst, h, if_true]
      have ht : t.TransactionID = transactionID := by simpa [matchTransactionID] using h
      exact List.Forall₂.cons (hf t ht) (List.forall₂_same.mpr fun x _ => hrefl x)
    · simp only [updateFirst, h]
      exact List.Forall₂.cons (hrefl t) (updateFirst_frame transactionID f hf ts)

theorem updateFirst_split (p : Transaction → Bool) (f : Transaction → Transaction) :
    ∀ l : List Transaction, l.any p = true →
      ∃ pre r post, l = pre ++ r :: post ∧ p r = true ∧ (∀ x ∈ pre, p x = false) ∧
        updateFirst p f l = pre ++ f r :: post
  | [], h => by simp at h
  | t :: ts, h => by
    by_cases hp : p t = true
    · exact ⟨[], t, ts, rfl, hp, by simp, by simp [updateFirst, hp]⟩
    · have hp' : p t = false := by simpa using hp
      have hts : ts.any p = true := by simpa [List.any_cons, hp'] using h
      obtain ⟨pre, r, post, hl, hr, hpre, hu⟩ := updateFirst_split p f ts hts
      refine ⟨t :: pre, r, post, by simp [hl], hr, ?_, by simp [updateFirst, hp', hu]⟩
      intro x hx
      rcases List.mem_cons.mp hx with rfl | hx
      · exact hp'
      · exact hpre x hx

/-- The listing of a user when the store answers: the user's records, newest first, cut at
the effective limit. -/
theorem GetUserTransactions_answer (env : Env) (userID : String) (limit : Int) (w : World)
    (hd : ∀ op, env.driverErr op = none) :
    MongoDB.GetUserTransactions env userID limit w =
      (.ok (((userRecords userID w.db.transactionCollection).insertionSort
          (fun a b => b.CreatedAt ≤ a.CreatedAt)).take (effectiveLimit limit)),
        w.emit (.transactionsFind userID (if limit ≤ 0 then 50 else limit))) := by
  have hL : (if limit ≤ 0 then (50 : Int) else limit).toNat = effectiveLimit limit := by
    unfold effectiveLimit
    split_ifs <;> first | rfl | omega
  simp only [MongoDB.GetUserTransactions, hd, hL, userRecords, World.emit]

/-! ## The webhook path never writes the account store -/

theorem GetUserByID_db (env : Env) (userID : String) (w : World) :
    (MongoDB.GetUserByID env userID w).2.db = w.db := by
  simp only [MongoDB.GetUserByID, World.emit]
  split
  · rfl
  · split <;> rfl

theorem GetTransactionByPaymentID_db (env : Env) (paymentID : String) (w : World) :
    (MongoDB.GetTransactionByPaymentID env paymentID w).2.db = w.db := by
  simp only [MongoDB.GetTransactionByPaymentID, World.emit]
  split
  · rfl
  · split <;> rfl

theorem UpdateTransactionStatus_collection (env : Env) (transactionID status : String)
    (w : World) :
    (MongoDB.UpdateTransactionStatus env transactionID status w).2.db.collection =
      w.db.collection := by
  simp only [MongoDB.UpdateTransactionStatus, World.emit]
  split
  · rfl
  · split <;> rfl

theorem handlePaymentSuccess_collection (env : Env) (event : Event) (w : World) :
    (App.handlePaymentSuccess env event w).2.db.collection = w.db.collection := by
  unfold App.handlePaymentSuccess
  cases h0 : event.Data with
  | none => rfl
  | some data =>
    simp only []
    cases h1 : env.unmarshalPaymentIntent data.Raw with
    | error e => rfl
    | ok intent =>
      simp only []
      cases h2 : intent.Metadata.lookup "user_id" with
      | none => rfl
      | some u =>
        simp only []
        have hU := GetUserByID_db env u (w.emit (.unmarshalPaymentIntent data.Raw))
        rcases hu : MongoDB.GetUserByID env u (w.emit (.unmarshalPaymentIntent data.Raw))
          with ⟨_ | user, w1⟩
        · rw [hu] at hU
          exact congrArg MongoDB.collection hU
        · rw [hu] at hU
          have hT := GetTransactionByPaymentID_db env intent.ID w1
          simp only []
          rcases ht : MongoDB.GetTransactionByPaymentID env intent.ID w1 with ⟨_ | t, w2⟩
          · rw [ht] at hT
            simp only [World.emit]
            rw [show w2.db = w1.db from hT, show w1.db = w.db from hU]
          · rw [ht] at hT
            have hS := UpdateTransactionStatus_collection env t.TransactionID "completed" w2
            simp only []
            rcases hs : MongoDB.UpdateTransactionStatus env t.TransactionID "completed" w2
              with ⟨_ | _, w3⟩
            · rw [hs] at hS
              simp only [World.emit]
              rw [show w3.db.collection = w2.db.collection from hS,
                show w2.db = w1.db from hT, show w1.db = w.db from hU]
            · rw [hs] at hS
              simp only [World.emit]
              rw [show w3.db.collection = w2.db.collection from hS,
                show w2.db = w1.db from hT, show w1.db = w.db from hU]

theorem handleStripeWebhook_collection (env : Env) (r : Request) (w : World) :
    (App.handleStripeWebhook env r w).2.db.collection = w.db.collection := by
  unfold App.handleStripeWebhook
  split
  · rfl
  · cases r.Body with
    | error e => rfl
    | ok body =>
      simp only []
      split
      · rfl
      · simp only [StripeService.VerifyWebhookSignature]
        cases env.ConstructEvent body (r.HeaderGet "Stripe-Signature") with
        | some e => rfl
        | none =>
          simp only []
          cases env.unmarshalEvent body with
          | error e => rfl
          | ok event =>
            simp only []
            split
            · have hc := handlePaymentSuccess_collection env event
                (((w.emit .ioReadAll).emit (.ConstructEvent body
                  (r.HeaderGet "Stripe-Signature"))).emit (.unmarshalEvent body) |>.emit
                  (.log ("Received Stripe webhook event: " ++ event.Type_)))
              rcases hp : App.handlePaymentSuccess env event
                (((w.emit .ioReadAll).emit (.ConstructEvent body
                  (r.HeaderGet "Stripe-Signature"))).emit (.unmarshalEvent body) |>.emit
                  (.log ("Received Stripe webhook event: " ++ event.Type_)))
                with ⟨_ | _ | _, w1⟩
              · rw [hp] at hc
                simp only [hp]
                exact hc
              · rw [hp] at hc
                simp only [hp]
                exact hc
              · rw [hp] at hc
                simp only [hp]
                exact hc
            · rfl

/-! ## Signature verification precedes everything else -/

/-- C1: a POST webhook request with a non-empty `Stripe-Signature` header whose signature
verification fails is answered 400 "Signature verification failed"; the database (ledger
and accounts) is exactly what it was, and the only external calls of the run are the body
read, the verification itself and one log line: the body is never unmarshalled. -/
theorem handleStripeWebhook_signature_failure (env : Env) (r : Request) (w : World)
    (body err : String) (hm : r.Method = "POST") (hb : r.Body = .ok body)
    (hs : r.HeaderGet "Stripe-Signature" ≠ "")
    (hv : env.ConstructEvent body (r.HeaderGet "Stripe-Signature") = some err) :
    (App.handleStripeWebhook env r w).1 = some (httpError "Signature verification failed" 400) ∧
    (App.handleStripeWebhook env r w).1.map Response.StatusCode = some 400 ∧
    (App.handleStripeWebhook env r w).2.db = w.db ∧
    (App.handleStripeWebhook env r w).2.trace = w.trace ++
      [Call.ioReadAll, Call.ConstructEvent body (r.HeaderGet "Stripe-Signature"),
        Call.log ("Webhook signature verification failed: " ++
          ("webhook signature verification failed: " ++ err))] := by
  simp [App.handleStripeWebhook, hm, hb, hs, hv, StripeService.VerifyWebhookSignature,
    World.emit, httpError]

/-- Witness for C1: a delivery of a genuine event body under a forged signature. -/
theorem handleStripeWebhook_signature_failure_witness :
    (App.handleStripeWebhook sampleEnv (sampleRequest "evt:pi_1:u1" "forged")
        (sampleWorld [sampleTransaction "pending"])).1.map Response.StatusCode = some 400 ∧
    (App.handleStripeWebhook sampleEnv (sampleRequest "evt:pi_1:u1" "forged")
        (sampleWorld [sampleTransaction "pending"])).2.db =
      (sampleWorld [sampleTransaction "pending"]).db :=
  have h := handleStripeWebhook_signature_failure sampleEnv
    (sampleRequest "evt:pi_1:u1" "forged") (sampleWorld [sampleTransaction "pending"])
    "evt:pi_1:u1" "webhook had no valid signature" rfl rfl (by decide) (by decide)
  ⟨h.2.1, h.2.2.1⟩

/-! ## Status transitions -/

/-- A correctly signed delivery of the sample `payment_intent.succeeded` event. -/
theorem sample_delivery :
    SucceededDelivery sampleEnv (sampleRequest "evt:pi_1:u1" "good") "evt:pi_1:u1"
      { Type_ := "payment_intent.succeeded", Data := some { Raw := "pi_1:u1" } }
      { ID := "pi_1", ClientSecret := "", Amount := 5000, Metadata := [("user_id", "u1")] } :=
  ⟨rfl, rfl, by decide, by decide, rfl, rfl, by decide, rfl⟩

/-- C3, counterexample.  The ledger `shadowedLedger` contains the pending record `tx-1`
with payment id `pi_1`, behind the failed record `tx-0` with the same payment id; the user
`u1` exists and the store answers.  Handling the correctly signed
`payment_intent.succeeded` event for `pi_1` tagged with `u1` answers 200, twice, but the
lookup by payment id returns `tx-0`: after each delivery the pending record is still
pending.  Likewise, on a ledger holding only the pending record, when the update of the
store times out the event is answered 200 and the record is still pending. -/
theorem pending_record_not_completed_counterexample :
    sampleTransaction "pending" ∈ shadowedLedger ∧
    (sampleTransaction "pending").PaymentID = "pi_1" ∧
    (sampleTransaction "pending").Status = "pending" ∧
    (sampleWorld shadowedLedger).db.collection.find? (matchUserID "u1") = some sampleUser ∧
    (App.handleStripeWebhook sampleEnv (sampleRequest "evt:pi_1:u1" "good")
        (sampleWorld shadowedLedger)).1.map Response.StatusCode = some 200 ∧
    (App.handleStripeWebhook sampleEnv (sampleRequest "evt:pi_1:u1" "good")
        (sampleWorld shadowedLedger)).2.db.transactionCollection =
      [{ sampleTransaction "completed" with TransactionID := "tx-0", UpdatedAt := 9 },
        sampleTransaction "pending"] ∧
    (App.handleStripeWebhook sampleEnv (sampleRequest "evt:pi_1:u1" "good")
      (App.handleStripeWebhook sampleEnv (sampleRequest "evt:pi_1:u1" "good")
        (sampleWorld shadowedLedger)).2).1.map Response.StatusCode = some 200 ∧
    (App.handleStripeWebhook sampleEnv (sampleRequest "evt:pi_1:u1" "good")
      (App.handleStripeWebhook sampleEnv (sampleRequest "evt:pi_1:u1" "good")
        (sampleWorld shadowedLedger)).2).2.db.transactionCollection =
      [{ sampleTransaction "completed" with TransactionID := "tx-0", UpdatedAt := 9 },
        sampleTransaction "pending"] ∧
    (App.handleStripeWebhook sampleEnvUpdateDown (sampleRequest "evt:pi_1:u1" "good")
        (sampleWorld [sampleTransaction "pending"])).1.map Response.StatusCode = some 200 ∧
    (App.handleStripeWebhook sampleEnvUpdateDown (sampleRequest "evt:pi_1:u1" "good")
        (sampleWorld [sampleTransaction "pending"])).2.db.transactionCollection =
      [sampleTransaction "pending"] :=
  ⟨by decide, rfl, rfl, by decide, by decide, by decide, by decide, by decide, by decide,
    by decide⟩

/-- C3, amended: take a ledger in which the record `r` that the store returns for payment
id `P` (the first record with that payment id) is pending and is also the first record
with its own transaction id, a user `U` that exists, and a store that answers every call.
Handling a correctly signed `payment_intent.succeeded` event for `P` tagged with
`user_id = U` answers 200 and the record for `P` is then `r` with status `completed`;
handling the same request once more answers 200 again and the record for `P` still has
status `completed` (only `UpdatedAt` is overwritten by the time of the second run). -/
theorem handleStripeWebhook_completes_idempotent (env env2 : Env) (req : Request)
    (body : String) (event : Event) (intent : PaymentIntent) (userID : String) (user : User)
    (w : World) (r : Transaction)
    (h1 : SucceededDelivery env req body event intent)
    (h2 : SucceededDelivery env2 req body event intent)
    (htag : intent.Metadata.lookup "user_id" = some userID)
    (hd1 : ∀ op, env.driverErr op = none) (hd2 : ∀ op, env2.driverErr op = none)
    (huser : w.db.collection.find? (matchUserID userID) = some user)
    (hP : w.db.transactionCollection.find? (matchPaymentID intent.ID) = some r)
    (hT : w.db.transactionCollection.find? (matchTransactionID r.TransactionID) = some r)
    (_hpending : r.Status = "pending") :
    (App.handleStripeWebhook env req w).1.map Response.StatusCode = some 200 ∧
    (App.handleStripeWebhook env req w).2.db.transactionCollection.find?
        (matchPaymentID intent.ID) = some (r.withStatus "completed" env.now) ∧
    (r.withStatus "completed" env.now).Status = "completed" ∧
    (App.handleStripeWebhook env2 req (App.handleStripeWebhook env req w).2).1.map
      Response.StatusCode = some 200 ∧
    (App.handleStripeWebhook env2 req
        (App.handleStripeWebhook env req w).2).2.db.transactionCollection.find?
        (matchPaymentID intent.ID) = some (r.withStatus "completed" env2.now) ∧
    (r.withStatus "completed" env2.now).Status = "completed" := by
  have hfP : ∀ t : Transaction, ∀ now : Time,
      matchPaymentID intent.ID (t.withStatus "completed" now) = matchPaymentID intent.ID t :=
    fun t now => by simp [matchPaymentID, Transaction.withStatus]
  have hfT : ∀ t : Transaction, ∀ now : Time,
      matchTransactionID r.TransactionID (t.withStatus "completed" now) =
        matchTransactionID r.TransactionID t :=
    fun t now => by simp [matchTransactionID, Transaction.withStatus]
  have e1 := handleStripeWebhook_found h1 htag hd1 huser hP
  have hP1 : (App.handleStripeWebhook env req w).2.db.transactionCollection.find?
      (matchPaymentID intent.ID) = some (r.withStatus "completed" env.now) := by
    rw [e1]; exact find?_updateFirst_same (fun t => hfP t env.now) hT hP
  have hT1 : (App.handleStripeWebhook env req w).2.db.transactionCollection.find?
      (matchTransactionID (r.withStatus "completed" env.now).TransactionID) =
        some (r.withStatus "completed" env.now) := by
    rw [e1]; exact find?_updateFirst_same (fun t => hfT t env.now) hT hT
  have huser1 : (App.handleStripeWebhook env req w).2.db.collection.find?
      (matchUserID userID) = some user := by
    rw [e1]; exact huser
  have e2 := handleStripeWebhook_found h2 htag hd2 huser1 hP1
  refine ⟨by rw [e1]; rfl, hP1, rfl, by rw [e2]; rfl, ?_, rfl⟩
  rw [e2]
  exact find?_updateFirst_same (r := r.withStatus "completed" env.now)
    (fun t => hfP t env2.now) hT1 hP1

/-- Witness for C3: the pending sample deposit, delivered twice. -/
theorem handleStripeWebhook_completes_idempotent_witness :
    (App.handleStripeWebhook sampleEnv (sampleRequest "evt:pi_1:u1" "good")
        (sampleWorld [sampleTransaction "pending"])).1.map Response.StatusCode = some 200 ∧
    (App.handleStripeWebhook sampleEnv (sampleRequest "evt:pi_1:u1" "good")
      (App.handleStripeWebhook sampleEnv (sampleRequest "evt:pi_1:u1" "good")
        (sampleWorld [sampleTransaction "pending"])).2).1.map Response.StatusCode = some 200 ∧
    (App.handleStripeWebhook sampleEnv (sampleRequest "evt:pi_1:u1" "good")
      (App.handleStripeWebhook sampleEnv (sampleRequest "evt:pi_1:u1" "good")
        (sampleWorld [sampleTransaction "pending"])).2).2.db.transactionCollection.find?
        (matchPaymentID "pi_1") =
      some ((sampleTransaction "pending").withStatus "completed" 9) :=
  have h := handleStripeWebhook_completes_idempotent sampleEnv sampleEnv
    (sampleRequest "evt:pi_1:u1" "good") "evt:pi_1:u1"
    { Type_ := "payment_intent.succeeded", Data := some { Raw := "pi_1:u1" } }
    { ID := "pi_1", ClientSecret := "", Amount := 5000, Metadata := [("user_id", "u1")] }
    "u1" sampleUser (sampleWorld [sampleTransaction "pending"]) (sampleTransaction "pending")
    sample_delivery sample_delivery (by decide) (fun _ => rfl) (fun _ => rfl) (by decide)
    (by decide) (by decide) (by decide)
  ⟨h.1, h.2.2.2.1, h.2.2.2.2.1⟩

/-! ## Payment ids are not a key of the ledger -/

theorem paymentIDs_append (l : List Transaction) (t : Transaction) :
    paymentIDs (l ++ [t]) = paymentIDs l ++ (if t.PaymentID = "" then [] else [t.PaymentID]) := by
  by_cases h : t.PaymentID = ""
  · simp [paymentIDs, List.filter_append, List.filter, h]
  · have hb : (t.PaymentID != "") = true := by simpa using h
    simp [paymentIDs, List.filter_append, List.filter, h, hb]

/-- C4, counterexample: the sample ledger holds one record with payment id `pi_1`;
`CreateTransaction` for the same payment id succeeds, and the ledger then holds two
records with payment id `pi_1`. -/
theorem CreateTransaction_duplicate_counterexample :
    paymentIDs (sampleWorld [sampleTransaction "pending"]).db.transactionCollection
      = ["pi_1"] ∧
    (MongoDB.CreateTransaction sampleEnv sampleDuplicate
        (sampleWorld [sampleTransaction "pending"])).1 =
      .ok (pendingRecord sampleEnv sampleDuplicate) ∧
    (MongoDB.CreateTransaction sampleEnv sampleDuplicate
        (sampleWorld [sampleTransaction "pending"])).2.db.transactionCollection =
      [sampleTransaction "pending", pendingRecord sampleEnv sampleDuplicate] ∧
    paymentIDs (MongoDB.CreateTransaction sampleEnv sampleDuplicate
        (sampleWorld [sampleTransaction "pending"])).2.db.transactionCollection
      = ["pi_1", "pi_1"] :=
  ⟨by decide, rfl, by decide, by decide⟩

/-- C4, amended: the ledger has no uniqueness check on payment ids.  For every ledger that
already contains a record with payment id `P`, `CreateTransaction` with `PaymentID = P`
succeeds when the store answers: it returns the new pending record, the ledger is the old
one with that record appended, the accounts are untouched, and the payment ids of the
ledger are no longer pairwise distinct.  The only failure is a driver error, reported as
"failed to create transaction: ..." with the database unchanged. -/
theorem CreateTransaction_accepts_duplicate (env : Env) (req : TransactionRequest)
    (w : World) (hd : env.driverErr .transactionsInsertOne = none)
    (hP : req.PaymentID ∈ paymentIDs w.db.transactionCollection) :
    (MongoDB.CreateTransaction env req w).1 = .ok (pendingRecord env req) ∧
    (pendingRecord env req).PaymentID = req.PaymentID ∧
    (pendingRecord env req).Status = "pending" ∧
    (MongoDB.CreateTransaction env req w).2.db.transactionCollection =
      w.db.transactionCollection ++ [pendingRecord env req] ∧
    (MongoDB.CreateTransaction env req w).2.db.collection = w.db.collection ∧
    ¬ (paymentIDs (MongoDB.CreateTransaction env req w).2.db.transactionCollection).Nodup ∧
    ∀ (env2 : Env) (err : String), env2.driverErr .transactionsInsertOne = some err →
      (MongoDB.CreateTransaction env2 req w).1 =
        .error ("failed to create transaction: " ++ err) ∧
      (MongoDB.CreateTransaction env2 req w).2.db = w.db := by
  have hne : req.PaymentID ≠ "" := by
    intro h0
    simp only [paymentIDs, List.mem_map, List.mem_filter] at hP
    obtain ⟨a, ⟨_, ha⟩, hae⟩ := hP
    rw [hae, h0] at ha
    simp at ha
  refine ⟨?_, rfl, rfl, ?_, ?_, ?_, ?_⟩
  · simp [MongoDB.CreateTransaction, hd, pendingRecord]
  · simp [MongoDB.CreateTransaction, hd, pendingRecord, World.emit]
  · simp [MongoDB.CreateTransaction, hd, World.emit]
  · have hl : (MongoDB.CreateTransaction env req w).2.db.transactionCollection =
        w.db.transactionCollection ++ [pendingRecord env req] := by
      simp [MongoDB.CreateTransaction, hd, pendingRecord, World.emit]
    rw [hl, paymentIDs_append]
    have hp : (pendingRecord env req).PaymentID = req.PaymentID := rfl
    rw [hp, if_neg hne]
    intro hnd
    have := (List.nodup_append.mp hnd).2.2
    exact this hP (List.mem_singleton_self _)
  · intro env2 err he
    simp [MongoDB.CreateTransaction, he, World.emit]

/-- Witness for C4 (amended): a second record for `pi_1` in the sample ledger. -/
theorem CreateTransaction_accepts_duplicate_witness :
    (MongoDB.CreateTransaction sampleEnv sampleDuplicate
        (sampleWorld [sampleTransaction "pending"])).2.db.transactionCollection =
      (sampleWorld [sampleTransaction "pending"]).db.transactionCollection ++
        [pendingRecord sampleEnv sampleDuplicate] :=
  (CreateTransaction_accepts_duplicate sampleEnv sampleDuplicate
    (sampleWorld [sampleTransaction "pending"]) rfl (by decide)).2.2.2.1

/-! ## Deposit creation -/

/-- C5: `CreatePaymentIntent` rejects bad requests by kind.  An empty `UserID` (whatever
the amount) and an amount `≤ 0` (whatever the user, existing ones included) fail with
"valid user_id and amount are required" and the world is untouched: no lookup, no gateway
call, no ledger write.  A non-empty `UserID` that resolves to no account, with a positive
amount, fails with "user not found: user not found"; the only external call is the user
lookup, so the gateway is not called and the database is unchanged. -/
theorem CreatePaymentIntent_rejects (env : Env) (req : StripePaymentIntentRequest)
    (w : World) :
    (req.UserID = "" →
      App.CreatePaymentIntent env req w =
        (.error "valid user_id and amount are required", w)) ∧
    (req.Amount ≤ 0 →
      App.CreatePaymentIntent env req w =
        (.error "valid user_id and amount are required", w)) ∧
    (req.UserID ≠ "" → 0 < req.Amount → env.driverErr .usersFindOne = none →
      w.db.collection.find? (matchUserID req.UserID) = none →
      App.CreatePaymentIntent env req w =
        (.error ("user not found: " ++ "user not found"),
          { db := w.db, trace := w.trace ++ [Call.usersFindOne req.UserID] })) := by
  refine ⟨fun h => ?_, fun h => ?_, fun hid hamt hd huser => ?_⟩
  · simp [App.CreatePaymentIntent, h]
  · simp [App.CreatePaymentIntent, h]
  · have hamt' : ¬ req.Amount ≤ 0 := not_le.mpr hamt
    simp [App.CreatePaymentIntent, hid, hamt', GetUserByID_absent hd huser, World.emit]

/-- Witness for C5: `CreateDeposit("", 100)`, `CreateDeposit(U, 0)` and
`CreateDeposit("ghost-user", 100)` on a store that knows `U = u1` only. -/
theorem CreatePaymentIntent_rejects_witness :
    App.CreatePaymentIntent sampleEnv { UserID := "", Amount := 100 } (sampleWorld []) =
      (.error "valid user_id and amount are required", sampleWorld []) ∧
    App.CreatePaymentIntent sampleEnv { UserID := "u1", Amount := 0 } (sampleWorld []) =
      (.error "valid user_id and amount are required", sampleWorld []) ∧
    App.CreatePaymentIntent sampleEnv { UserID := "ghost-user", Amount := 100 }
        (sampleWorld []) =
      (.error ("user not found: " ++ "user not found"),
        { db := (sampleWorld []).db,
          trace := (sampleWorld []).trace ++ [Call.usersFindOne "ghost-user"] }) :=
  ⟨(CreatePaymentIntent_rejects sampleEnv { UserID := "", Amount := 100 }
      (sampleWorld [])).1 rfl,
    (CreatePaymentIntent_rejects sampleEnv { UserID := "u1", Amount := 0 }
      (sampleWorld [])).2.1 (by decide),
    (CreatePaymentIntent_rejects sampleEnv { UserID := "ghost-user", Amount := 100 }
      (sampleWorld [])).2.2 (by decide) (by decide) rfl (by decide)⟩

/-- C6: for a valid request (the user exists, the amount is positive), when
`paymentintent.New` fails, `CreatePaymentIntent` fails with the gateway error wrapped as
"failed to create payment intent: ...", the database is unchanged, and the run made only
the user lookup and the gateway call: no insert into the ledger was attempted. -/
theorem CreatePaymentIntent_gateway_failure (env : Env) (req : StripePaymentIntentRequest)
    (w : World) (user : User) (gatewayErr : String)
    (hid : req.UserID ≠ "") (hamt : 0 < req.Amount)
    (hd : env.driverErr .usersFindOne = none)
    (huser : w.db.collection.find? (matchUserID req.UserID) = some user)
    (hg : env.paymentintentNew req.Amount req.UserID = .error gatewayErr) :
    (App.CreatePaymentIntent env req w).1 =
      .error ("failed to create payment intent: " ++
        ("failed to create payment intent: " ++ gatewayErr)) ∧
    (App.CreatePaymentIntent env req w).2.db = w.db ∧
    (App.CreatePaymentIntent env req w).2.trace = w.trace ++
      [Call.usersFindOne req.UserID, Call.paymentintentNew req.Amount req.UserID] := by
  have hamt' : ¬ req.Amount ≤ 0 := not_le.mpr hamt
  simp [App.CreatePaymentIntent, hid, hamt', GetUserByID_found hd huser,
    StripeService.CreatePaymentIntent, hg, World.emit]

/-- Witness for C6: a 50.00 PLN deposit of the sample user with Stripe unreachable. -/
theorem CreatePaymentIntent_gateway_failure_witness :
    (App.CreatePaymentIntent sampleEnvGatewayDown { UserID := "u1", Amount := 5000 }
        (sampleWorld [])).1 =
      .error ("failed to create payment intent: " ++
        ("failed to create payment intent: " ++ "connection refused")) ∧
    (App.CreatePaymentIntent sampleEnvGatewayDown { UserID := "u1", Amount := 5000 }
        (sampleWorld [])).2.db = (sampleWorld []).db :=
  have h := CreatePaymentIntent_gateway_failure sampleEnvGatewayDown
    { UserID := "u1", Amount := 5000 } (sampleWorld []) sampleUser "connection refused"
    (by decide) (by decide) rfl (by decide) rfl
  ⟨h.1, h.2.1⟩

/-- C7: for a valid request (the user exists, the amount is positive) for which
`paymentintent.New` returns an intent, `CreatePaymentIntent` returns success with exactly
the client secret and the id of that intent.  Nothing is assumed about the insert into the
ledger: when the insert fails the result is the same and the database is unchanged. -/
theorem CreatePaymentIntent_returns_intent (env : Env) (req : StripePaymentIntentRequest)
    (w : World) (user : User) (intent : PaymentIntent)
    (hid : req.UserID ≠ "") (hamt : 0 < req.Amount)
    (hd : env.driverErr .usersFindOne = none)
    (huser : w.db.collection.find? (matchUserID req.UserID) = some user)
    (hg : env.paymentintentNew req.Amount req.UserID = .ok intent) :
    (App.CreatePaymentIntent env req w).1 =
      .ok { ClientSecret := intent.ClientSecret, PaymentID := intent.ID } ∧
    ∀ err, env.driverErr .transactionsInsertOne = some err →
      (App.CreatePaymentIntent env req w).1 =
        .ok { ClientSecret := intent.ClientSecret, PaymentID := intent.ID } ∧
      (App.CreatePaymentIntent env req w).2.db = w.db := by
  have hamt' : ¬ req.Amount ≤ 0 := not_le.mpr hamt
  refine ⟨?_, fun err he => ?_⟩
  · cases hi : env.driverErr .transactionsInsertOne <;>
      simp [App.CreatePaymentIntent, hid, hamt', GetUserByID_found hd huser,
        StripeService.CreatePaymentIntent, hg, MongoDB.CreateTransaction, hi, World.emit]
  · simp [App.CreatePaymentIntent, hid, hamt', GetUserByID_found hd huser,
      StripeService.CreatePaymentIntent, hg, MongoDB.CreateTransaction, he, World.emit]

/-- Witness for C7: a 50.00 PLN deposit of the sample user while inserts time out. -/
theorem CreatePaymentIntent_returns_intent_witness :
    (App.CreatePaymentIntent sampleEnvInsertDown { UserID := "u1", Amount := 5000 }
        (sampleWorld [])).1 = .ok { ClientSecret := "pi_1_secret", PaymentID := "pi_1" } ∧
    (App.CreatePaymentIntent sampleEnvInsertDown { UserID := "u1", Amount := 5000 }
        (sampleWorld [])).2.db = (sampleWorld []).db :=
  (CreatePaymentIntent_returns_intent sampleEnvInsertDown { UserID := "u1", Amount := 5000 }
    (sampleWorld []) sampleUser
    { ID := "pi_1", ClientSecret := "pi_1_secret", Amount := 5000,
      Metadata := [("user_id", "u1")] }
    (by decide) (by decide) rfl (by decide) rfl).2 "context deadline exceeded" rfl

/-- C8: for an existing user `U` and an amount of `n > 0` cents, when Stripe returns an
intent with id `P` and the insert into the ledger succeeds, `CreatePaymentIntent` appends
exactly one record to the ledger and changes nothing else in the database.  The new record
has `UserID = U`, type `deposit`, status `pending`, `PaymentID = P`, currency `PLN` and
amount `float64(n) / 100.0`, which is `n / 100` up to float64 rounding (relative error at
most `2^-51`); for `n = 5000` the amount is exactly `50` and the description reads
"... 50.00 PLN". -/
theorem CreatePaymentIntent_appends_pending_deposit (env : Env)
    (req : StripePaymentIntentRequest) (w : World) (user : User) (intent : PaymentIntent)
    (hid : req.UserID ≠ "") (hamt : 0 < req.Amount)
    (hd : ∀ op, env.driverErr op = none)
    (huser : w.db.collection.find? (matchUserID req.UserID) = some user)
    (hg : env.paymentintentNew req.Amount req.UserID = .ok intent) :
    (App.CreatePaymentIntent env req w).2.db.transactionCollection =
      w.db.transactionCollection ++
        [{ TransactionID := env.uuid
           UserID := req.UserID
           Type_ := "deposit"
           Amount := (Float64.ofInt req.Amount).div (Float64.ofInt 100)
           Currency := "PLN"
           Status := "pending"
           Description := "Doładowanie portfela - " ++
             ((Float64.ofInt req.Amount).div (Float64.ofInt 100)).format2 ++ " PLN"
           PaymentID := intent.ID
           CreatedAt := env.now
           UpdatedAt := env.now }] ∧
    (App.CreatePaymentIntent env req w).2.db.collection = w.db.collection ∧
    |((Float64.ofInt req.Amount).div (Float64.ofInt 100)).toRat - (req.Amount : ℚ) / 100| ≤
      (req.Amount : ℚ) / 100 / 2 ^ 51 ∧
    (req.Amount = 5000 →
      ((Float64.ofInt req.Amount).div (Float64.ofInt 100)).toRat = 50 ∧
      ((Float64.ofInt req.Amount).div (Float64.ofInt 100)).format2 = "50.00") := by
  have hamt' : ¬ req.Amount ≤ 0 := not_le.mpr hamt
  refine ⟨?_, ?_, amount_close req.Amount hamt, fun h5 => ?_⟩
  · simp [App.CreatePaymentIntent, hid, hamt', GetUserByID_found (hd _) huser,
      StripeService.CreatePaymentIntent, hg, MongoDB.CreateTransaction, hd, World.emit]
  · simp [App.CreatePaymentIntent, hid, hamt', GetUserByID_found (hd _) huser,
      StripeService.CreatePaymentIntent, hg, MongoDB.CreateTransaction, hd, World.emit]
  · rw [h5]
    have h50 : (Float64.ofInt 5000).div (Float64.ofInt 100) =
        ⟨false, 7036874417766400, -47⟩ := by decide
    refine ⟨?_, by decide⟩
    rw [h50]
    norm_num [Float64.toRat]

/-- Witness for C8: `CreateDeposit(U, 5000)` on an empty ledger leaves one pending record
for `pi_1` whose amount is 50. -/
theorem CreatePaymentIntent_appends_pending_deposit_witness :
    (App.CreatePaymentIntent sampleEnv { UserID := "u1", Amount := 5000 }
        (sampleWorld [])).2.db.transactionCollection =
      [{ sampleTransaction "pending" with
          TransactionID := "tx-2", CreatedAt := 9, UpdatedAt := 9 }] ∧
    (sampleTransaction "pending").Amount.toRat = 50 :=
  have h := CreatePaymentIntent_appends_pending_deposit sampleEnv
    { UserID := "u1", Amount := 5000 } (sampleWorld []) sampleUser
    { ID := "pi_1", ClientSecret := "pi_1_secret", Amount := 5000,
      Metadata := [("user_id", "u1")] }
    (by decide) (by decide) (fun _ => rfl) (by decide) rfl
  ⟨h.1.trans (by decide), (h.2.2.2 rfl).1⟩

/-! ## Business-logic misses on the webhook path -/

/-- C9, counterexample: a correctly signed, parseable `payment_intent.succeeded` event
tagged with the user id `ghost`, which the account store does not hold, is answered 500,
not 200. -/
theorem unknown_user_counterexample :
    SucceededDelivery sampleEnv (sampleRequest "evt:pi_1:ghost" "good") "evt:pi_1:ghost"
      { Type_ := "payment_intent.succeeded", Data := some { Raw := "pi_1:ghost" } }
      { ID := "pi_1", ClientSecret := "", Amount := 5000,
        Metadata := [("user_id", "ghost")] } ∧
    (sampleWorld [sampleTransaction "pending"]).db.collection.find? (matchUserID "ghost")
      = none ∧
    (App.handleStripeWebhook sampleEnv (sampleRequest "evt:pi_1:ghost" "good")
        (sampleWorld [sampleTransaction "pending"])).1.map Response.StatusCode = some 500 ∧
    (App.handleStripeWebhook sampleEnv (sampleRequest "evt:pi_1:ghost" "good")
        (sampleWorld [sampleTransaction "pending"])).1.map Response.StatusCode ≠ some 200 :=
  ⟨⟨rfl, rfl, by decide, by decide, rfl, rfl, by decide, rfl⟩, by decide, by decide, by decide⟩

/-- C9, amended: for every correctly signed, parseable `payment_intent.succeeded` event
whose `user_id` tag names a user that is absent from the account store, the webhook
endpoint answers 500 "Error processing payment": `handlePaymentSuccess` returns "user not
found in database: user not found", the handler logs it and turns it into the failure
response.  The database is unchanged and the ledger is not consulted. -/
theorem handleStripeWebhook_unknown_user_500 (env : Env) (req : Request) (body : String)
    (event : Event) (intent : PaymentIntent) (userID : String) (w : World)
    (h : SucceededDelivery env req body event intent)
    (htag : intent.Metadata.lookup "user_id" = some userID)
    (hd : env.driverErr .usersFindOne = none)
    (huser : w.db.collection.find? (matchUserID userID) = none) :
    (App.handleStripeWebhook env req w).1 = some (httpError "Error processing payment" 500) ∧
    (App.handleStripeWebhook env req w).1.map Response.StatusCode = some 500 ∧
    (App.handleStripeWebhook env req w).2.db = w.db ∧
    (App.handleStripeWebhook env req w).2.trace =
      w.trace ++ deliveryPrefix req body event userID ++
        [Call.log ("Error handling payment success: " ++
          ("user not found in database: " ++ "user not found"))] := by
  rw [handleStripeWebhook_unknown_user h htag hd huser]
  exact ⟨rfl, rfl, rfl, rfl⟩

/-- Witness for C9 (amended): the sample event tagged with `ghost`. -/
theorem handleStripeWebhook_unknown_user_500_witness :
    (App.handleStripeWebhook sampleEnv (sampleRequest "evt:pi_1:ghost" "good")
        (sampleWorld [sampleTransaction "pending"])).1 =
      some (httpError "Error processing payment" 500) ∧
    (App.handleStripeWebhook sampleEnv (sampleRequest "evt:pi_1:ghost" "good")
        (sampleWorld [sampleTransaction "pending"])).2.db =
      (sampleWorld [sampleTransaction "pending"]).db :=
  have h := handleStripeWebhook_unknown_user_500 sampleEnv
    (sampleRequest "evt:pi_1:ghost" "good") "evt:pi_1:ghost"
    { Type_ := "payment_intent.succeeded", Data := some { Raw := "pi_1:ghost" } }
    { ID := "pi_1", ClientSecret := "", Amount := 5000, Metadata := [("user_id", "ghost")] }
    "ghost" (sampleWorld [sampleTransaction "pending"])
    ⟨rfl, rfl, by decide, by decide, rfl, rfl, by decide, rfl⟩ (by decide) rfl (by decide)
  ⟨h.1, h.2.2.1⟩

/-- C10: for every correctly signed `payment_intent.succeeded` event tagged with an
existing user whose payment id matches no ledger record, the webhook endpoint answers 200
and the database is unchanged: no record is created or altered.  The run looks the
payment id up, logs a warning and acknowledges. -/
theorem handleStripeWebhook_unmatched_payment (env : Env) (req : Request) (body : String)
    (event : Event) (intent : PaymentIntent) (userID : String) (user : User) (w : World)
    (h : SucceededDelivery env req body event intent)
    (htag : intent.Metadata.lookup "user_id" = some userID)
    (hd : ∀ op, env.driverErr op = none)
    (huser : w.db.collection.find? (matchUserID userID) = some user)
    (hP : w.db.transactionCollection.find? (matchPaymentID intent.ID) = none) :
    (App.handleStripeWebhook env req w).1 = some { StatusCode := 200, Body := "" } ∧
    (App.handleStripeWebhook env req w).2.db = w.db ∧
    (App.handleStripeWebhook env req w).2.trace =
      w.trace ++ deliveryPrefix req body event userID ++
        [Call.transactionsFindOne intent.ID,
          Call.log ("Warning: Could not find transaction for payment ID " ++ intent.ID ++
            ": " ++ "transaction not found"),
          Call.log ("Payment of " ++ toString intent.Amount ++
            " cents successful for user " ++ userID ++ " (" ++ user.Login ++ ")")] := by
  rw [handleStripeWebhook_unmatched h htag hd huser hP]
  exact ⟨rfl, rfl, rfl⟩

/-- Witness for C10: an event for payment `pi_9`, of which the sample ledger has no
record. -/
theorem handleStripeWebhook_unmatched_payment_witness :
    (App.handleStripeWebhook sampleEnv (sampleRequest "evt:pi_9:u1" "good")
        (sampleWorld [sampleTransaction "pending"])).1 = some { StatusCode := 200, Body := "" } ∧
    (App.handleStripeWebhook sampleEnv (sampleRequest "evt:pi_9:u1" "good")
        (sampleWorld [sampleTransaction "pending"])).2.db =
      (sampleWorld [sampleTransaction "pending"]).db :=
  have h := handleStripeWebhook_unmatched_payment sampleEnv
    (sampleRequest "evt:pi_9:u1" "good") "evt:pi_9:u1"
    { Type_ := "payment_intent.succeeded", Data := some { Raw := "pi_9:u1" } }
    { ID := "pi_9", ClientSecret := "", Amount := 5000, Metadata := [("user_id", "u1")] }
    "u1" sampleUser (sampleWorld [sampleTransaction "pending"])
    ⟨rfl, rfl, by decide, by decide, rfl, rfl, by decide, rfl⟩ (by decide) (fun _ => rfl) (by decide)
    (by decide)
  ⟨h.1, h.2.1⟩

/-! ## Events the webhook ignores or rejects -/

/-- C11: a correctly signed, parseable event whose type is anything other than
`payment_intent.succeeded` is answered 200; the database is unchanged, and the run made
only the body read, the signature check, the parse of the event and one log line: no
call reads or writes the ledger or the account store. -/
theorem handleStripeWebhook_other_event_acknowledged (env : Env) (r : Request) (w : World)
    (body : String) (event : Event) (hm : r.Method = "POST") (hb : r.Body = .ok body)
    (hs : r.HeaderGet "Stripe-Signature" ≠ "")
    (hv : env.ConstructEvent body (r.HeaderGet "Stripe-Signature") = none)
    (hp : env.unmarshalEvent body = .ok event)
    (ht : event.Type_ ≠ "payment_intent.succeeded") :
    (App.handleStripeWebhook env r w).1 = some { StatusCode := 200, Body := "" } ∧
    (App.handleStripeWebhook env r w).2.db = w.db ∧
    (App.handleStripeWebhook env r w).2.trace = w.trace ++
      [Call.ioReadAll, Call.ConstructEvent body (r.HeaderGet "Stripe-Signature"),
        Call.unmarshalEvent body,
        Call.log ("Received Stripe webhook event: " ++ event.Type_)] ∧
    ∀ c ∈ (App.handleStripeWebhook env r w).2.trace, c ∈ w.trace ∨ c.isStore = false := by
  have e : App.handleStripeWebhook env r w =
      (some { StatusCode := 200, Body := "" },
        { db := w.db
          trace := w.trace ++
            [Call.ioReadAll, Call.ConstructEvent body (r.HeaderGet "Stripe-Signature"),
              Call.unmarshalEvent body,
              Call.log ("Received Stripe webhook event: " ++ event.Type_)] }) := by
    simp [App.handleStripeWebhook, hm, hb, hs, hv, hp, ht,
      StripeService.VerifyWebhookSignature, World.emit]
  rw [e]
  refine ⟨rfl, rfl, rfl, fun c hc => ?_⟩
  simp only [List.mem_append, List.mem_cons, List.mem_singleton, List.not_mem_nil,
    or_false] at hc
  rcases hc with hc | rfl | rfl | rfl | rfl
  · exact Or.inl hc
  all_goals exact Or.inr rfl

/-- Witness for C11: a correctly signed `payment_intent.created` event. -/
theorem handleStripeWebhook_other_event_acknowledged_witness :
    (App.handleStripeWebhook sampleEnv (sampleRequest "evt:created" "good")
        (sampleWorld [sampleTransaction "pending"])).1 = some { StatusCode := 200, Body := "" } ∧
    (App.handleStripeWebhook sampleEnv (sampleRequest "evt:created" "good")
        (sampleWorld [sampleTransaction "pending"])).2.db =
      (sampleWorld [sampleTransaction "pending"]).db :=
  have h := handleStripeWebhook_other_event_acknowledged sampleEnv
    (sampleRequest "evt:created" "good") (sampleWorld [sampleTransaction "pending"])
    "evt:created" { Type_ := "payment_intent.created", Data := some { Raw := "" } }
    rfl rfl (by decide) (by decide) rfl (by decide)
  ⟨h.1, h.2.1⟩

/-- C12: a POST webhook request whose `Stripe-Signature` header is missing or empty is
answered 400 whatever its body; the database is unchanged and no call of the run verifies
a signature or parses a payload.  With a readable body the answer is "Missing Stripe
signature" and the run made the body read and one log line only. -/
theorem handleStripeWebhook_missing_signature (env : Env) (r : Request) (w : World)
    (hm : r.Method = "POST")
    (hsig : r.Header.lookup "Stripe-Signature" = none ∨
      r.Header.lookup "Stripe-Signature" = some "") :
    (App.handleStripeWebhook env r w).1.map Response.StatusCode = some 400 ∧
    (App.handleStripeWebhook env r w).2.db = w.db ∧
    (∀ c ∈ (App.handleStripeWebhook env r w).2.trace,
      c ∈ w.trace ∨ (c.isVerifyOrParse = false ∧ c.isStore = false)) ∧
    ∀ body, r.Body = .ok body →
      App.handleStripeWebhook env r w =
        (some (httpError "Missing Stripe signature" 400),
          { db := w.db
            trace := w.trace ++
              [Call.ioReadAll, Call.log "Missing Stripe signature in webhook"] }) := by
  have hget : r.HeaderGet "Stripe-Signature" = "" := by
    rcases hsig with h | h <;> simp [Request.HeaderGet, h]
  cases hb : r.Body with
  | error err =>
    have e : App.handleStripeWebhook env r w =
        (some (httpError "Error reading request body" 400),
          { db := w.db
            trace := w.trace ++
              [Call.ioReadAll, Call.log ("Error reading webhook body: " ++ err)] }) := by
      simp [App.handleStripeWebhook, hm, hb, World.emit]
    rw [e]
    refine ⟨rfl, rfl, fun c hc => ?_, fun body hbody => by cases hbody⟩
    simp only [List.mem_append, List.mem_cons, List.mem_singleton, List.not_mem_nil,
      or_false] at hc
    rcases hc with hc | rfl | rfl
    · exact Or.inl hc
    all_goals exact Or.inr ⟨rfl, rfl⟩
  | ok body =>
    have e : App.handleStripeWebhook env r w =
        (some (httpError "Missing Stripe signature" 400),
          { db := w.db
            trace := w.trace ++
              [Call.ioReadAll, Call.log "Missing Stripe signature in webhook"] }) := by
      simp [App.handleStripeWebhook, hm, hb, hget, World.emit]
    rw [e]
    refine ⟨rfl, rfl, fun c hc => ?_, fun _ _ => rfl⟩
    simp only [List.mem_append, List.mem_cons, List.mem_singleton, List.not_mem_nil,
      or_false] at hc
    rcases hc with hc | rfl | rfl
    · exact Or.inl hc
    all_goals exact Or.inr ⟨rfl, rfl⟩

/-- Witness for C12: a genuine event body delivered without any header. -/
theorem handleStripeWebhook_missing_signature_witness :
    (App.handleStripeWebhook sampleEnv
        { Method := "POST", Body := .ok "evt:pi_1:u1", Header := [] }
        (sampleWorld [sampleTransaction "pending"])).1.map Response.StatusCode = some 400 ∧
    (App.handleStripeWebhook sampleEnv
        { Method := "POST", Body := .ok "evt:pi_1:u1", Header := [] }
        (sampleWorld [sampleTransaction "pending"])).2.db =
      (sampleWorld [sampleTransaction "pending"]).db :=
  have h := handleStripeWebhook_missing_signature sampleEnv
    { Method := "POST", Body := .ok "evt:pi_1:u1", Header := [] }
    (sampleWorld [sampleTransaction "pending"]) rfl (Or.inl rfl)
  ⟨h.1, h.2.1⟩

/-- C14: for a correctly signed `payment_intent.succeeded` event whose payment intent
has no `user_id` in its metadata, `handlePaymentSuccess` fails with "user_id not found in
payment intent metadata" right after parsing the payment intent, in whatever world it is
run; the webhook answers 500, the database is unchanged, and no call of the run reads or
writes the account store or the ledger. -/
theorem handlePaymentSuccess_missing_user_id (env : Env) (req : Request) (body : String)
    (event : Event) (intent : PaymentIntent) (w : World)
    (h : SucceededDelivery env req body event intent)
    (htag : intent.Metadata.lookup "user_id" = none) :
    (∀ w0 : World, App.handlePaymentSuccess env event w0 =
      (some (.error "user_id not found in payment intent metadata"),
        { db := w0.db, trace := w0.trace ++ [Call.unmarshalPaymentIntent event.Raw] })) ∧
    (App.handleStripeWebhook env req w).1 = some (httpError "Error processing payment" 500) ∧
    (App.handleStripeWebhook env req w).2.db = w.db ∧
    (App.handleStripeWebhook env req w).2.trace = w.trace ++
      [Call.ioReadAll, Call.ConstructEvent body (req.HeaderGet "Stripe-Signature"),
        Call.unmarshalEvent body,
        Call.log ("Received Stripe webhook event: " ++ event.Type_),
        Call.unmarshalPaymentIntent event.Raw,
        Call.log ("Error handling payment success: " ++
          "user_id not found in payment intent metadata")] ∧
    ∀ c ∈ (App.handleStripeWebhook env req w).2.trace, c ∈ w.trace ∨ c.isStore = false := by
  have hps : ∀ w0 : World, App.handlePaymentSuccess env event w0 =
      (some (.error "user_id not found in payment intent metadata"),
        { db := w0.db, trace := w0.trace ++ [Call.unmarshalPaymentIntent event.Raw] }) := by
    intro w0
    simp [App.handlePaymentSuccess, h.data_eq, h.payload, htag, World.emit]
  have e : App.handleStripeWebhook env req w =
      (some (httpError "Error processing payment" 500),
        { db := w.db
          trace := w.trace ++
            [Call.ioReadAll, Call.ConstructEvent body (req.HeaderGet "Stripe-Signature"),
              Call.unmarshalEvent body,
              Call.log ("Received Stripe webhook event: " ++ event.Type_),
              Call.unmarshalPaymentIntent event.Raw,
              Call.log ("Error handling payment success: " ++
                "user_id not found in payment intent metadata")] }) := by
    rw [handleStripeWebhook_reaches_handler h, hps]
    simp [World.emit]
  refine ⟨hps, ?_⟩
  rw [e]
  refine ⟨rfl, rfl, rfl, fun c hc => ?_⟩
  simp only [List.mem_append, List.mem_cons, List.mem_singleton, List.not_mem_nil,
    or_false] at hc
  rcases hc with hc | rfl | rfl | rfl | rfl | rfl | rfl
  · exact Or.inl hc
  all_goals exact Or.inr rfl

/-- Witness for C14: the sample event for `pi_1` with empty metadata. -/
theorem handlePaymentSuccess_missing_user_id_witness :
    (App.handleStripeWebhook sampleEnv (sampleRequest "evt:pi_1:" "good")
        (sampleWorld [sampleTransaction "pending"])).1 =
      some (httpError "Error processing payment" 500) ∧
    (App.handleStripeWebhook sampleEnv (sampleRequest "evt:pi_1:" "good")
        (sampleWorld [sampleTransaction "pending"])).2.db =
      (sampleWorld [sampleTransaction "pending"]).db :=
  have h := handlePaymentSuccess_missing_user_id sampleEnv
    (sampleRequest "evt:pi_1:" "good") "evt:pi_1:"
    { Type_ := "payment_intent.succeeded", Data := some { Raw := "pi_1:" } }
    { ID := "pi_1", ClientSecret := "", Amount := 5000, Metadata := [] }
    (sampleWorld [sampleTransaction "pending"])
    ⟨rfl, rfl, by decide, by decide, rfl, rfl, by decide, rfl⟩ rfl
  ⟨h.2.1, h.2.2.1⟩

/-- C15: handling a webhook never writes the account store.  For every outside world,
every request (the valid `payment_intent.succeeded` deliveries for a known user and a
known payment id included) and every state, the `users` collection after
`handleStripeWebhook` is the one before; the same holds for `handlePaymentSuccess` run on
any event. -/
theorem webhook_leaves_accounts_unchanged (env : Env) (r : Request) (event : Event)
    (w : World) :
    (App.handleStripeWebhook env r w).2.db.collection = w.db.collection ∧
    (App.handlePaymentSuccess env event w).2.db.collection = w.db.collection :=
  ⟨handleStripeWebhook_collection env r w, handlePaymentSuccess_collection env event w⟩

/-! ## Order of the checks of a deposit -/

/-- C16, counterexample: `ghost-user` resolves to no account and the amount is 0;
`CreatePaymentIntent` fails with the validation message, the world is untouched (no
lookup was made), and the message is not the not-found one. -/
theorem validation_first_counterexample :
    (sampleWorld []).db.collection.find? (matchUserID "ghost-user") = none ∧
    App.CreatePaymentIntent sampleEnv { UserID := "ghost-user", Amount := 0 }
        (sampleWorld []) =
      (.error "valid user_id and amount are required", sampleWorld []) ∧
    "valid user_id and amount are required" ≠ "user not found: " ++ "user not found" :=
  ⟨by decide, rfl, by decide⟩

/-- C16, amended: `CreatePaymentIntent` checks the request before it looks the account
up.  For every non-empty `UserID` that resolves to no account and every amount `≤ 0`, it
fails with "valid user_id and amount are required" (the validation error, not a not-found
error) and the world is untouched: the account store is not consulted. -/
theorem CreatePaymentIntent_validates_first (env : Env) (req : StripePaymentIntentRequest)
    (w : World) (_hid : req.UserID ≠ "")
    (_habsent : w.db.collection.find? (matchUserID req.UserID) = none)
    (hamt : req.Amount ≤ 0) :
    App.CreatePaymentIntent env req w =
      (.error "valid user_id and amount are required", w) ∧
    (App.CreatePaymentIntent env req w).2.trace = w.trace := by
  have e : App.CreatePaymentIntent env req w =
      (.error "valid user_id and amount are required", w) := by
    simp [App.CreatePaymentIntent, hamt]
  rw [e]
  exact ⟨rfl, rfl⟩

/-- Witness for C16 (amended): `CreateDeposit("ghost-user", 0)`. -/
theorem CreatePaymentIntent_validates_first_witness :
    App.CreatePaymentIntent sampleEnv { UserID := "ghost-user", Amount := 0 }
        (sampleWorld []) =
      (.error "valid user_id and amount are required", sampleWorld []) :=
  (CreatePaymentIntent_validates_first sampleEnv { UserID := "ghost-user", Amount := 0 }
    (sampleWorld []) (by decide) (by decide) (by decide)).1

/-! ## Frame of a status update -/

/-- C17: `UpdateTransactionStatus transactionID status` changes nothing but the status
and `UpdatedAt` of a record whose transaction id is `transactionID`.  In every outside
world: the ledger after the call matches the ledger before record by record, a record
with another id being identical and a record with that id keeping its transaction id,
user id, type, amount, currency, description, payment id and `CreatedAt`; the number of
records is the same; the accounts are unchanged; and either the ledger is unchanged or
exactly one record, the first with that id, has been replaced by itself with the new
status and `UpdatedAt`.  When the store answers and no record has that id, the call
fails with "transaction not found" and the database is unchanged; when the store answers
and some record has it, the call succeeds. -/
theorem UpdateTransactionStatus_frame (env : Env) (transactionID status : String)
    (w : World) :
    List.Forall₂ (statusFrame transactionID) w.db.transactionCollection
      (MongoDB.UpdateTransactionStatus env transactionID status
        w).2.db.transactionCollection ∧
    (MongoDB.UpdateTransactionStatus env transactionID status
        w).2.db.transactionCollection.length = w.db.transactionCollection.length ∧
    (MongoDB.UpdateTransactionStatus env transactionID status w).2.db.collection =
      w.db.collection ∧
    ((MongoDB.UpdateTransactionStatus env transactionID status w).2.db = w.db ∨
      ∃ pre r post, w.db.transactionCollection = pre ++ r :: post ∧
        r.TransactionID = transactionID ∧ (∀ x ∈ pre, x.TransactionID ≠ transactionID) ∧
        (MongoDB.UpdateTransactionStatus env transactionID status
          w).2.db.transactionCollection = pre ++ r.withStatus status env.now :: post) ∧
    (env.driverErr .transactionsUpdateOne = none →
      (∀ t ∈ w.db.transactionCollection, t.TransactionID ≠ transactionID) →
      (MongoDB.UpdateTransactionStatus env transactionID status w).1 =
        .error "transaction not found" ∧
      (MongoDB.UpdateTransactionStatus env transactionID status w).2.db = w.db) ∧
    (env.driverErr .transactionsUpdateOne = none →
      (∃ t ∈ w.db.transactionCollection, t.TransactionID = transactionID) →
      (MongoDB.UpdateTransactionStatus env transactionID status w).1 = .ok ()) := by
  have hrefl : ∀ l : List Transaction, List.Forall₂ (statusFrame transactionID) l l :=
    fun l => List.forall₂_same.mpr fun x _ =>
      ⟨fun _ => rfl, rfl, rfl, rfl, rfl, rfl, rfl, rfl, rfl⟩
  have hf : ∀ t : Transaction, t.TransactionID = transactionID →
      statusFrame transactionID t (t.withStatus status env.now) :=
    fun t ht => ⟨fun hne => absurd ht hne, rfl, rfl, rfl, rfl, rfl, rfl, rfl, rfl⟩
  cases hd : env.driverErr .transactionsUpdateOne with
  | some err =>
    have e : MongoDB.UpdateTransactionStatus env transactionID status w =
        (.error ("failed to update transaction status: " ++ err),
          { db := w.db
            trace := w.trace ++
              [Call.transactionsUpdateOne transactionID status env.now] }) := by
      simp [MongoDB.UpdateTransactionStatus, hd, World.emit]
    rw [e]
    exact ⟨hrefl _, rfl, rfl, Or.inl rfl, (fun h => by cases h), (fun h => by cases h)⟩
  | none =>
    by_cases hany : w.db.transactionCollection.any (matchTransactionID transactionID) = true
    · have e : MongoDB.UpdateTransactionStatus env transactionID status w =
          (.ok (),
            { db := { collection := w.db.collection
                      transactionCollection :=
                        updateFirst (matchTransactionID transactionID)
                          (fun t => t.withStatus status env.now)
                          w.db.transactionCollection }
              trace := w.trace ++
                [Call.transactionsUpdateOne transactionID status env.now] }) := by
        simp [MongoDB.UpdateTransactionStatus, hd, World.emit, hany, Transaction.withStatus]
      have hfr := updateFirst_frame transactionID (fun t => t.withStatus status env.now) hf
        w.db.transactionCollection
      rw [e]
      refine ⟨hfr, hfr.length_eq.symm, rfl, Or.inr ?_, (fun _ hnone => ?_), (fun _ _ => rfl)⟩
      · obtain ⟨pre, r, post, hl, hr, hpre, hu⟩ :=
          updateFirst_split (matchTransactionID transactionID)
            (fun t => t.withStatus status env.now) w.db.transactionCollection hany
        refine ⟨pre, r, post, hl, by simpa [matchTransactionID] using hr, ?_, hu⟩
        intro x hx
        simpa [matchTransactionID] using hpre x hx
      · obtain ⟨t, ht, hpt⟩ := List.any_eq_true.mp hany
        exact absurd (by simpa [matchTransactionID] using hpt) (hnone t ht)
    · have e : MongoDB.UpdateTransactionStatus env transactionID status w =
          (.error "transaction not found",
            { db := w.db
              trace := w.trace ++
                [Call.transactionsUpdateOne transactionID status env.now] }) := by
        simp only [MongoDB.UpdateTransactionStatus, hd, World.emit, hany]
        rfl
      rw [e]
      refine ⟨hrefl _, rfl, rfl, Or.inl rfl, (fun _ _ => ⟨rfl, rfl⟩), (fun _ hex => ?_)⟩
      obtain ⟨t, ht, htid⟩ := hex
      exact absurd (List.any_eq_true.mpr ⟨t, ht, by simp [matchTransactionID, htid]⟩) hany

/-- Witness for C17: an update for a transaction id the sample ledger does not hold. -/
theorem UpdateTransactionStatus_frame_witness :
    (MongoDB.UpdateTransactionStatus sampleEnv "tx-404" "completed"
        (sampleWorld [sampleTransaction "pending"])).1 = .error "transaction not found" ∧
    (MongoDB.UpdateTransactionStatus sampleEnv "tx-404" "completed"
        (sampleWorld [sampleTransaction "pending"])).2.db =
      (sampleWorld [sampleTransaction "pending"]).db :=
  (UpdateTransactionStatus_frame sampleEnv "tx-404" "completed"
    (sampleWorld [sampleTransaction "pending"])).2.2.2.2.1 rfl (by decide)

/-! ## Listing the transactions of a user -/

/-- C13: with the store answering, `GetUserTransactions userID limit` returns a list, and
leaves the database as it was.  With `L` the limit when it is positive and 50 otherwise:
every returned record is a ledger record of that user; the list is ordered by `CreatedAt`,
newest first; its length is the smaller of `L` and the number of the user's records; it is
made of the newest records of the user, that is, together with some records `rest` it is a
rearrangement of the user's records and nothing in `rest` is newer than a returned record;
and when the user has at most `L` records, all of them are returned.  For a non-empty
`userID` of an existing user, `App.GetUserTransactions` returns that list with `Total` its
length. -/
theorem GetUserTransactions_newest_first (env : Env) (userID : String) (limit : Int)
    (w : World) (hd : ∀ op, env.driverErr op = none) :
    ∃ result : List Transaction,
      (MongoDB.GetUserTransactions env userID limit w).1 = .ok result ∧
      (MongoDB.GetUserTransactions env userID limit w).2.db = w.db ∧
      (∀ t ∈ result, t ∈ w.db.transactionCollection ∧ t.UserID = userID) ∧
      result.Pairwise (fun a b => b.CreatedAt ≤ a.CreatedAt) ∧
      result.length ≤ effectiveLimit limit ∧
      result.length =
        min (effectiveLimit limit) (userRecords userID w.db.transactionCollection).length ∧
      (∃ rest : List Transaction,
        (result ++ rest).Perm (userRecords userID w.db.transactionCollection) ∧
        ∀ a ∈ result, ∀ b ∈ rest, b.CreatedAt ≤ a.CreatedAt) ∧
      ((userRecords userID w.db.transactionCollection).length ≤ effectiveLimit limit →
        result.Perm (userRecords userID w.db.transactionCollection)) ∧
      (∀ user : User, userID ≠ "" → w.db.collection.find? (matchUserID userID) = some user →
        (App.GetUserTransactions env userID limit w).1 =
          .ok { Transactions := result, Total := result.length }) := by
  haveI : IsTotal Transaction (fun a b => b.CreatedAt ≤ a.CreatedAt) :=
    ⟨fun a b => Nat.le_total b.CreatedAt a.CreatedAt⟩
  haveI : IsTrans Transaction (fun a b => b.CreatedAt ≤ a.CreatedAt) :=
    ⟨fun _ _ _ hab hbc => Nat.le_trans hbc hab⟩
  have hperm := List.perm_insertionSort (fun a b : Transaction => b.CreatedAt ≤ a.CreatedAt)
    (userRecords userID w.db.transactionCollection)
  have hsorted := List.sorted_insertionSort
    (fun a b : Transaction => b.CreatedAt ≤ a.CreatedAt)
    (userRecords userID w.db.transactionCollection)
  generalize hS : (userRecords userID w.db.transactionCollection).insertionSort
    (fun a b => b.CreatedAt ≤ a.CreatedAt) = sorted at hperm hsorted
  have hans := GetUserTransactions_answer env userID limit w hd
  rw [hS] at hans
  have hsplit : sorted.take (effectiveLimit limit) ++ sorted.drop (effectiveLimit limit) =
      sorted := List.take_append_drop _ _
  have hpair : (sorted.take (effectiveLimit limit) ++
      sorted.drop (effectiveLimit limit)).Pairwise (fun a b => b.CreatedAt ≤ a.CreatedAt) := by
    rw [hsplit]; exact hsorted
  refine ⟨sorted.take (effectiveLimit limit), by rw [hans], by rw [hans]; rfl, ?_,
    (List.pairwise_append.mp hpair).1, ?_, ?_, ⟨sorted.drop (effectiveLimit limit), ?_,
      (List.pairwise_append.mp hpair).2.2⟩, ?_, ?_⟩
  · intro t ht
    have hmem : t ∈ userRecords userID w.db.transactionCollection :=
      hperm.mem_iff.mp (List.mem_of_mem_take ht)
    simpa [userRecords] using hmem
  · rw [List.length_take]; exact Nat.min_le_left _ _
  · rw [List.length_take, hperm.length_eq]
  · rw [hsplit]; exact hperm
  · intro hle
    rw [List.take_of_length_le (by rw [hperm.length_eq]; exact hle)]
    exact hperm
  · intro user hid huser
    have hans2 := GetUserTransactions_answer env userID limit
      (w.emit (.usersFindOne userID)) hd
    have hdb : (w.emit (Call.usersFindOne userID)).db = w.db := rfl
    rw [hdb, hS] at hans2
    simp [App.GetUserTransactions, hid, GetUserByID_found (hd _) huser, hans2]

/-- Witness for C13: the two newest of the three deposits of `u1` in the sample ledger. -/
theorem GetUserTransactions_newest_first_witness :
    (MongoDB.GetUserTransactions sampleEnv "u1" 2 (sampleWorld sampleLedger)).1 =
      .ok [sampleDeposit "c" "u1" 7, sampleDeposit "d" "u1" 5] ∧
    [sampleDeposit "c" "u1" 7, sampleDeposit "d" "u1" 5].length =
      min (effectiveLimit 2)
        (userRecords "u1" (sampleWorld sampleLedger).db.transactionCollection).length :=
  have h := GetUserTransactions_newest_first sampleEnv "u1" 2 (sampleWorld sampleLedger)
    (fun _ => rfl)
  have hres : ∀ result : List Transaction,
      (MongoDB.GetUserTransactions sampleEnv "u1" 2 (sampleWorld sampleLedger)).1 =
        .ok result → result = [sampleDeposit "c" "u1" 7, sampleDeposit "d" "u1" 5] :=
    fun _ hr => (Except.ok.inj hr).symm
  let ⟨result, h1, _, _, _, _, h6, _⟩ := h
  ⟨rfl, hres result h1 ▸ h6⟩

end PocketWallet
